import Mathlib

/-! # DevDriver internal service (`ddInternalService.cpp`)

A shallow embedding of `InternalService::HandleRequest` and
`InternalService::QueryPostSizeLimit`.

Conventions of the embedding:

* a C string (`char*`) is the list of its characters before the terminating NUL; a null
  pointer is `none`;
* raw bytes (the POST body, the bytes given to the byte writer) are lists of characters too;
* every call the handler makes on its collaborators (the registry callback, the request
  context, the response writer, the diagnostic macros) is appended to a log, in program order;
  the handler returns its `Result` together with that log.
-/

namespace DevDriver

/-- Modelled from the spec: the `DevDriver::Result` enumeration, which is declared in a header
outside the available sources. The handler itself names `Success` and `Unavailable`; the other
constructors are failure codes its collaborators may hand back. -/
inductive Result where
  | Success
  | Error
  | NotReady
  | Unavailable
  | Rejected
  | InsufficientMemory
  | InvalidParameter
  deriving DecidableEq

/-- One registered service as the introspection command sees it: `GetName()` and
`GetVersion()`. -/
structure IService where
  name : String
  version : Nat
  deriving DecidableEq

/-- The calls `HandleRequest` makes on its collaborators. -/
inductive Call where
  /-- The callback `m_info.pfnQueryRegisteredServices`. -/
  | QueryRegisteredServices
  /-- The method `pRequestContext->BeginJsonResponse`. -/
  | BeginJsonResponse
  /-- The method `pRequestContext->BeginByteResponse`. -/
  | BeginByteResponse
  /-- The method `pRequestContext->GetPostData`. -/
  | GetPostData
  /-- Structured writer: `BeginMap()`. -/
  | BeginMap
  /-- Structured writer: `KeyAndBeginList(key)`. -/
  | KeyAndBeginList (key : String)
  /-- Structured writer: `KeyAndValue(key, value)` with a string value. -/
  | KeyAndValueStr (key : String) (value : String)
  /-- Structured writer: `KeyAndValue(key, value)` with a numeric value. -/
  | KeyAndValueNum (key : String) (value : Nat)
  /-- Structured writer: `EndMap()`. -/
  | EndMap
  /-- Structured writer: `EndList()`. -/
  | EndList
  /-- Byte writer: `Write(byte)`. -/
  | Write (byte : Char)
  /-- Byte writer: `WriteBytes(pBytes, numBytes)`. -/
  | WriteBytes (bytes : List Char)
  /-- Either writer: `End()`. -/
  | End
  /-- The macro `DD_WARN_REASON`. -/
  | WarnReason (reason : String)
  /-- The macro `DD_NOT_IMPLEMENTED`. -/
  | NotImplemented
  deriving DecidableEq

/-- What the service was created with (`m_info`): the registry callback, given by the result
it returns and the services it stores in the vector. -/
structure ServiceInfo where
  queryResult : Result
  registeredServices : List IService

/-- One request as the handler sees it (`IURIRequestContext`): the argument string
(`GetRequestArguments()`, possibly null), the POST body (`GetPostData()`), and the results the
context and the writer give back. -/
structure RequestContext where
  requestArguments : Option (List Char)
  postData : List Char
  beginJsonResponse : Result
  beginByteResponse : Result
  writerEnd : Result

/-- Modelled from the spec: `Platform::Strtok(pDst, pDelimiter, ppContext)`, whose body is
outside the available sources. It is the reentrant C tokenizer: it continues from the context
when `pDst` is null, skips leading delimiters, returns the run of non-delimiters that follows
and leaves the context just behind the delimiter that ended it. An absent string (null `pDst`
with a null context) and a string with no token left yield null. The pair returned is the
token and the new context. -/
def Strtok (pDst : Option (List Char)) (pDelimiter : List Char) (pContext : Option (List Char)) :
    Option (List Char) × Option (List Char) :=
  match (match pDst with | some s => some s | none => pContext) with
  | none => (none, pContext)
  | some s =>
    match s.dropWhile (fun c => pDelimiter.contains c) with
    | [] => (none, some [])
    | c :: cs =>
      let tok := (c :: cs).takeWhile (fun c => !pDelimiter.contains c)
      let rest := (c :: cs).dropWhile (fun c => !pDelimiter.contains c)
      (some tok, some (rest.drop 1))

/-- The static `InternalService::kPostSizeLimit`: 10 KiB. -/
def kPostSizeLimit : Nat := 10 * 1024

/-- The delimiter string `pArgDelim` of `HandleRequest`: a single space. -/
def pArgDelim : List Char := [' ']

/-- The `while (true)` loop of the `diag-echo` branch: fetch the next argument and, if there
is one, write a space and the argument; stop at the first null. Each round consumes at least
one character of the context, so `fuel` larger than the length of the context is never used
up. -/
def echoLoop : Nat → Option (List Char) → List Call → List Call
  | 0, _, log => log
  | fuel + 1, pStrtokContext, log =>
    match Strtok none pArgDelim pStrtokContext with
    | (some pArg, pStrtokContext) =>
      echoLoop fuel pStrtokContext (log ++ [Call.Write ' ', Call.WriteBytes pArg])
    | (none, _) => log

/-- The length of the buffer a context points into (0 for a null context). -/
def contextLength : Option (List Char) → Nat
  | none => 0
  | some s => s.length

/-- The method `InternalService::HandleRequest`: the result returned and the log of the calls
made. -/
def HandleRequest (info : ServiceInfo) (ctx : RequestContext) : Result × List Call :=
  let result := Result.Unavailable
  match Strtok ctx.requestArguments pArgDelim none with
  | (none, _) => (result, [])
  | (some pCmdName, pStrtokContext) =>
    if pCmdName = "services".toList then
      let log := [Call.QueryRegisteredServices]
      let result := info.queryResult
      let (result, log) :=
        if result = Result.Success then (ctx.beginJsonResponse, log ++ [Call.BeginJsonResponse])
        else (result, log)
      if result = Result.Success then
        let log := log ++ [Call.BeginMap, Call.KeyAndBeginList "Services"]
        let log := info.registeredServices.foldl
          (fun log pService => log ++
            [Call.BeginMap,
             Call.KeyAndValueStr "Name" pService.name,
             Call.KeyAndValueNum "Version" pService.version,
             Call.EndMap]) log
        let log := log ++ [Call.EndList, Call.EndMap]
        (ctx.writerEnd, log ++ [Call.End])
      else (result, log)
    else if pCmdName = "diag-echo".toList then
      let log := [Call.BeginByteResponse]
      let result := ctx.beginByteResponse
      if result = Result.Success then
        let (pArg, pStrtokContext) := Strtok none pArgDelim pStrtokContext
        let (echoedArgs, log) :=
          match pArg with
          | some pArg => (true, log ++ [Call.WriteBytes pArg])
          | none => (false, log)
        let log := echoLoop (contextLength pStrtokContext + 1) pStrtokContext log
        let log := log ++ [Call.GetPostData]
        let log :=
          if ctx.postData.length ≠ 0 then
            let log := if echoedArgs then log ++ [Call.Write '\n'] else log
            log ++ [Call.WriteBytes ctx.postData]
          else log
        let log := log ++ [Call.Write '\x00']
        (ctx.writerEnd, log ++ [Call.End])
      else (result, log ++ [Call.WarnReason "Failed to begin a ByteResponse for internal://diag-echo"])
    else (result, [Call.NotImplemented])

/-- The method `InternalService::QueryPostSizeLimit`. `none` stands for undefined behaviour:
`strcmp` applied to a null token. (The `DD_ASSERT(pArgs != nullptr)` at the top compiles to
nothing in release builds; a null `pArgs` reaches `strcmp` as a null token.) -/
def QueryPostSizeLimit (pArgs : Option (List Char)) : Option Nat :=
  let postSizeLimit := 0
  match Strtok pArgs [' '] none with
  | (none, _) => none
  | (some pCmdName, _) =>
    if pCmdName = "diag-echo".toList then some kPostSizeLimit else some postSizeLimit

/-- The bytes a log hands to the byte writer, in order: the argument of each `Write` and of
each `WriteBytes`. -/
def bytesWritten : List Call → List Char
  | [] => []
  | Call.Write b :: cs => b :: bytesWritten cs
  | Call.WriteBytes bs :: cs => bs ++ bytesWritten cs
  | _ :: cs => bytesWritten cs

/-- The non-empty space-delimited tokens of an argument string, in order. -/
def tokens (s : List Char) : List (List Char) :=
  (s.splitOn ' ').filter (fun t => !t.isEmpty)

/-- The writes the `diag-echo` branch makes for a list of arguments: the first argument as it
is, every later one behind a space. -/
def argCalls : List (List Char) → List Call
  | [] => []
  | a :: as => Call.WriteBytes a :: as.flatMap (fun t => [Call.Write ' ', Call.WriteBytes t])

/-- The writes the `diag-echo` branch makes for the POST body, given whether arguments were
echoed before it. -/
def postCalls (echoedArgs : Bool) (postData : List Char) : List Call :=
  if postData.length ≠ 0 then
    (if echoedArgs then [Call.Write '\n'] else []) ++ [Call.WriteBytes postData]
  else []

/-- The writer calls the `services` command makes for one registered service. -/
def serviceCalls (pService : IService) : List Call :=
  [Call.BeginMap,
   Call.KeyAndValueStr "Name" pService.name,
   Call.KeyAndValueNum "Version" pService.version,
   Call.EndMap]

/-- Whether a call begins a response. -/
def Call.isBegin : Call → Bool
  | Call.BeginJsonResponse => true
  | Call.BeginByteResponse => true
  | _ => false

/-- Whether a call is made on a response writer. -/
def Call.isWriterCall : Call → Bool
  | Call.BeginMap => true
  | Call.KeyAndBeginList _ => true
  | Call.KeyAndValueStr _ _ => true
  | Call.KeyAndValueNum _ _ => true
  | Call.EndMap => true
  | Call.EndList => true
  | Call.Write _ => true
  | Call.WriteBytes _ => true
  | Call.End => true
  | _ => false

/-- What is open on the structured writer: a map or a list. -/
inductive Frame where
  | map
  | list
  deriving DecidableEq

/-- The nesting discipline of the structured writer, one call at a time, on the stack of what
is open (innermost first): `BeginMap` and `KeyAndBeginList` open a map and a list, `EndMap` and
`EndList` close the innermost open item and need it to be of their own kind, `KeyAndValue`
needs a map to be the innermost open item, `End` needs nothing to be open. `none` is a breach
of the discipline. Calls that are not made on the structured writer leave the stack alone. -/
def nestStep (stack : List Frame) : Call → Option (List Frame)
  | Call.BeginMap => some (Frame.map :: stack)
  | Call.KeyAndBeginList _ => some (Frame.list :: stack)
  | Call.EndMap =>
    match stack with
    | Frame.map :: rest => some rest
    | _ => none
  | Call.EndList =>
    match stack with
    | Frame.list :: rest => some rest
    | _ => none
  | Call.KeyAndValueStr _ _ =>
    match stack with
    | Frame.map :: _ => some stack
    | _ => none
  | Call.KeyAndValueNum _ _ =>
    match stack with
    | Frame.map :: _ => some stack
    | _ => none
  | Call.End => if stack = [] then some [] else none
  | _ => some stack

/-- Run the nesting discipline over a log, with a bound on the depth: the stack left at the
end, or `none` if a call breaks the discipline or the depth goes over the bound. -/
def nestRun (maxDepth : Nat) : List Frame → List Call → Option (List Frame)
  | stack, [] => some stack
  | stack, c :: cs =>
    match nestStep stack c with
    | some stack1 => if stack1.length ≤ maxDepth then nestRun maxDepth stack1 cs else none
    | none => none

end DevDriver

/-! # PAL platform and performance experiments (`platform.cpp`, `perfExperiment.cpp`)

The same conventions: a pointer is `none` when null, and each function returns its result
and the new state together with the log of the calls it makes on its collaborators. What the
collaborators answer is given by an environment. -/

namespace Pal

/-- Modelled from the spec: the `Pal::Result` enumeration, which is declared in a header
outside the available sources. `Success`, `ErrorUnavailable`, `ErrorInitializationFailed` and
`ErrorInvalidPointer` are named by the sources; the others are failure codes collaborators may
hand back. -/
inductive Result where
  | Success
  | ErrorUnavailable
  | ErrorInitializationFailed
  | ErrorInvalidPointer
  | ErrorOutOfMemory
  | ErrorUnknown
  deriving DecidableEq

/-- The preprocessor symbols `platform.cpp` is compiled against. Their values are set outside
the available sources. -/
structure BuildConfig where
  GPUOPEN_CLIENT_INTERFACE_MAJOR_VERSION : Nat
  GPUOPEN_DRIVER_CONTROL_CLEANUP_VERSION : Nat
  PAL_CLIENT_INTERFACE_MAJOR_VERSION : Nat
  PAL_ENABLE_PRINTS_ASSERTS : Bool

/-- An enumerated device, as far as the platform reads it: whether `GetProperties` reports
`gfxipProperties.flags.supportRgpTraces`. -/
structure Device where
  supportRgpTraces : Bool
  deriving DecidableEq

/-- The fields of `Platform` the developer-driver code reads and writes. `m_pDevice` holds the
entries below `m_deviceCount`; `supportRgpTraces` is `m_flags.supportRgpTraces`; a pointer is
given by its address. -/
structure Platform where
  m_pDevice : List Device
  m_pDevDriverServer : Option Nat
  m_pRgpServer : Option Nat
  supportRgpTraces : Bool
  deriving DecidableEq

/-- The field `m_deviceCount`. -/
def Platform.m_deviceCount (p : Platform) : Nat := p.m_pDevice.length

/-- The constructor `Platform::Platform`: no device, no bus client, no cached RGP server, and
the trace flag of the create info. -/
def Platform.new (createInfoSupportRgpTraces : Bool) : Platform :=
  { m_pDevice := [],
    m_pDevDriverServer := none,
    m_pRgpServer := none,
    supportRgpTraces := createInfoSupportRgpTraces }

/-- What the collaborators of the platform answer. -/
structure Env where
  /-- Result of `IPlatform::Init()`. -/
  iPlatformInit : Result
  /-- Answer of `DevDriverServer::IsConnectionAvailable`. -/
  isConnectionAvailable : Bool
  /-- What `PAL_NEW(DevDriver::DevDriverServer, ...)` returns; null when the allocation fails. -/
  newDevDriverServer : Option Nat
  /-- Result of `m_pDevDriverServer->Initialize()`. -/
  serverInit : DevDriver.Result
  /-- Result of `pMsgChannel->FindFirstClient(...)`. -/
  findFirstClient : DevDriver.Result
  /-- What `m_pDevDriverServer->GetRGPServer()` returns. -/
  getRGPServer : Option Nat
  /-- Result of `m_settingsLoader.Init()`. -/
  settingsLoaderInit : Result
  /-- Result of `m_eventProvider.Init()`. -/
  eventProviderInit : Result
  /-- Result of `ConnectToOsInterface()`. -/
  connectToOsInterface : Result
  /-- Result of `ReQueryDevices()` and the devices it enumerates. -/
  reQueryDevices : Result × List Device
  /-- Answer of `m_pRgpServer->TracesEnabled()`. -/
  tracesEnabled : Bool
  /-- Answer of `m_pDevDriverServer->ShouldShowOverlay()`. -/
  shouldShowOverlay : Bool

/-- The calls the platform code makes, and the entries into its own bootstrap steps. -/
inductive Call where
  /-- Step of `Init`: `IPlatform::Init()`. -/
  | IPlatformInit
  /-- Step of `Init`: `EarlyInitDevDriver()`. -/
  | EarlyInitDevDriver
  /-- Step of `Init`: `ConnectToOsInterface()`. -/
  | ConnectToOsInterface
  /-- Step of `Init`: `ReEnumerateDevices()`. -/
  | ReEnumerateDevices
  /-- Step of `Init`: `LateInitDevDriver()`. -/
  | LateInitDevDriver
  /-- Step of `Init`: `InitProperties()`. -/
  | InitProperties
  /-- The call `Util::SetDbgPrintCallback`. -/
  | SetDbgPrintCallback
  /-- The call `DevDriverServer::IsConnectionAvailable`. -/
  | IsConnectionAvailable
  /-- The allocation `PAL_NEW(DevDriver::DevDriverServer, ...)`. -/
  | NewDevDriverServer
  /-- The call `m_pDevDriverServer->Initialize()`. -/
  | DevDriverServerInit
  /-- The call `m_pDevDriverServer->GetMessageChannel()`. -/
  | GetMessageChannel
  /-- The call `pMsgChannel->FindFirstClient` with the `Tool` / `DeveloperModeEnabled` filter
  and the timeout `kFindClientTimeout`. -/
  | FindFirstClient
  /-- The assertion `PAL_ASSERT_ALWAYS()`. -/
  | AssertAlways
  /-- The release of the bus client: `PAL_DELETE` or `PAL_SAFE_DELETE` of
  `m_pDevDriverServer`. -/
  | DeleteDevDriverServer
  /-- The call `m_pDevDriverServer->GetRGPServer()`. -/
  | GetRGPServer
  /-- The call `m_settingsLoader.Init()`. -/
  | SettingsLoaderInit
  /-- The call `m_eventProvider.Init()`. -/
  | EventProviderInit
  /-- The call `m_pDevDriverServer->StartDeviceInit()`. -/
  | StartDeviceInit
  /-- The call `m_pDevDriverServer->GetDriverControlServer()`. -/
  | GetDriverControlServer
  /-- The call `pDriverControlServer->StartEarlyDeviceInit()`. -/
  | StartEarlyDeviceInit
  /-- The calls of `TearDownDevices` on device `gpu`: `Cleanup()`, the destructor and the
  release of its memory. -/
  | DeviceCleanup (gpu : Nat)
  /-- The call `ReQueryDevices()`. -/
  | ReQueryDevices
  /-- The call `GetInfoService()->RegisterInfoSource` with the name and version of the
  source. -/
  | RegisterInfoSource (name : String) (version : Nat)
  /-- The call `pDriverControlServer->SetNumGpus(numGpus)`. -/
  | SetNumGpus (numGpus : Nat)
  /-- The call `pDriverControlServer->SetDeviceClockCallback`. -/
  | SetDeviceClockCallback
  /-- The call `m_settingsLoader.ReadSettings(m_pDevice[0])`. -/
  | ReadSettings
  /-- The call `m_settingsLoader.OverrideDefaults()`. -/
  | OverrideDefaults
  /-- The call `m_pDevice[0]->GetProperties`. -/
  | GetProperties
  /-- The call `GetRGPServer()->EnableTraces()`. -/
  | EnableTraces
  /-- The call `pDriverControlServer->StartLateDeviceInit()`. -/
  | StartLateDeviceInit
  /-- The call `m_eventProvider.Destroy()`. -/
  | EventProviderDestroy
  /-- The call `m_pDevDriverServer->Destroy()`, with the value `m_pRgpServer` holds when the
  call is made. -/
  | DevDriverServerDestroy (cachedRgpServer : Option Nat)
  /-- The call `m_pRgpServer->TracesEnabled()`. -/
  | TracesEnabled
  /-- The call `m_pDevDriverServer->ShouldShowOverlay()`. -/
  | ShouldShowOverlay
  deriving DecidableEq

/-- The method `Platform::EarlyInitDevDriver`: the result, the platform afterwards and the
calls made. -/
def EarlyInitDevDriver (cfg : BuildConfig) (env : Env) (p : Platform) :
    Result × Platform × List Call :=
  let log := [Call.IsConnectionAvailable]
  let isConnectionAvailable := env.isConnectionAvailable
  let (p, log) :=
    if isConnectionAvailable then
      let p := { p with m_pDevDriverServer := env.newDevDriverServer }
      let log := log ++ [Call.NewDevDriverServer]
      if p.m_pDevDriverServer ≠ none then
        let log := log ++ [Call.DevDriverServerInit]
        let devDriverResult := env.serverInit
        let (devDriverResult, log) :=
          if devDriverResult = DevDriver.Result.Success then
            (env.findFirstClient, log ++ [Call.GetMessageChannel, Call.FindFirstClient])
          else (devDriverResult, log ++ [Call.AssertAlways])
        if devDriverResult ≠ DevDriver.Result.Success then
          ({ p with m_pDevDriverServer := none }, log ++ [Call.DeleteDevDriverServer])
        else
          ({ p with m_pRgpServer := env.getRGPServer }, log ++ [Call.GetRGPServer])
      else (p, log ++ [Call.AssertAlways])
    else (p, log)
  let log := log ++ [Call.SettingsLoaderInit]
  let result := env.settingsLoaderInit
  let (result, log) :=
    if result = Result.Success then (env.eventProviderInit, log ++ [Call.EventProviderInit])
    else (result, log)
  let log :=
    if p.m_pDevDriverServer ≠ none then
      if cfg.GPUOPEN_CLIENT_INTERFACE_MAJOR_VERSION < cfg.GPUOPEN_DRIVER_CONTROL_CLEANUP_VERSION
      then log ++ [Call.StartDeviceInit]
      else log ++ [Call.GetDriverControlServer, Call.StartEarlyDeviceInit]
    else log
  (result, p, log)

/-- The method `Platform::LateInitDevDriver`: the platform afterwards (its fields are not
written) and the calls made. -/
def LateInitDevDriver (cfg : BuildConfig) (p : Platform) : Platform × List Call :=
  let log := []
  let log :=
    if p.m_pDevDriverServer ≠ none then
      log ++ [Call.GetDriverControlServer, Call.RegisterInfoSource "pal" 1,
        Call.SetNumGpus p.m_deviceCount, Call.SetDeviceClockCallback]
    else log
  let log := if p.m_deviceCount ≥ 1 then log ++ [Call.ReadSettings] else log
  let log := log ++ [Call.OverrideDefaults]
  let log :=
    if cfg.GPUOPEN_CLIENT_INTERFACE_MAJOR_VERSION ≥ cfg.GPUOPEN_DRIVER_CONTROL_CLEANUP_VERSION
    then
      if p.m_pDevDriverServer ≠ none then
        let log :=
          match p.m_pDevice with
          | pDevice0 :: _ =>
            let log := log ++ [Call.GetProperties]
            if p.supportRgpTraces && pDevice0.supportRgpTraces then
              log ++ [Call.GetRGPServer, Call.EnableTraces]
            else log
          | [] => log
        let log := log ++ [Call.GetDriverControlServer]
        if cfg.PAL_CLIENT_INTERFACE_MAJOR_VERSION < 613 then log ++ [Call.StartLateDeviceInit]
        else log
      else log
    else log
  (p, log)

/-- The method `Platform::DestroyDevDriver`: the platform afterwards and the calls made. -/
def DestroyDevDriver (p : Platform) : Platform × List Call :=
  let log := [Call.EventProviderDestroy]
  if p.m_pDevDriverServer ≠ none then
    let p := { p with m_pRgpServer := none }
    let log := log ++ [Call.DevDriverServerDestroy p.m_pRgpServer]
    ({ p with m_pDevDriverServer := none }, log ++ [Call.DeleteDevDriverServer])
  else (p, log)

/-- The method `Platform::TearDownDevices`, continuing a log. -/
def TearDownDevices (p : Platform) (log : List Call) : Platform × List Call :=
  ({ p with m_pDevice := [] }, log ++ (List.range p.m_deviceCount).map Call.DeviceCleanup)

/-- The method `Platform::ReEnumerateDevices`. -/
def ReEnumerateDevices (env : Env) (p : Platform) : Result × Platform × List Call :=
  let (p, log) := TearDownDevices p []
  let log := log ++ [Call.ReQueryDevices]
  let result := env.reQueryDevices.1
  let p := { p with m_pDevice := env.reQueryDevices.2 }
  if result ≠ Result.Success then
    let (p, log) := TearDownDevices p log
    (result, p, log)
  else (result, p, log)

/-- The method `Platform::InitProperties`: it fills in the version and always succeeds. -/
def InitProperties : Result := Result.Success

/-- The method `Platform::Init`: the result, the platform afterwards and the calls made, with
an entry for each bootstrap step that is entered. -/
def Init (cfg : BuildConfig) (env : Env) (p : Platform) : Result × Platform × List Call :=
  let log := [Call.IPlatformInit]
  let result := env.iPlatformInit
  let (result, p, log) :=
    if result = Result.Success then
      let r := EarlyInitDevDriver cfg env p
      (r.1, r.2.1, log ++ [Call.EarlyInitDevDriver] ++ r.2.2)
    else (result, p, log)
  let log := if cfg.PAL_ENABLE_PRINTS_ASSERTS then log ++ [Call.SetDbgPrintCallback] else log
  let (result, log) :=
    if result = Result.Success then
      (env.connectToOsInterface, log ++ [Call.ConnectToOsInterface])
    else (result, log)
  let (result, p, log) :=
    if result = Result.Success then
      let r := ReEnumerateDevices env p
      (r.1, r.2.1, log ++ [Call.ReEnumerateDevices] ++ r.2.2)
    else (result, p, log)
  let (p, log) :=
    if result = Result.Success then
      let r := LateInitDevDriver cfg p
      (r.1, log ++ [Call.LateInitDevDriver] ++ r.2)
    else (p, log)
  let (result, log) :=
    if result = Result.Success then (InitProperties, log ++ [Call.InitProperties])
    else (result, log)
  (result, p, log)

/-- The method `Platform::IsDevDriverProfilingEnabled`: the answer and the calls made. -/
def IsDevDriverProfilingEnabled (env : Env) (p : Platform) : Bool × List Call :=
  let isProfilingEnabled := false
  if p.m_pRgpServer ≠ none then (env.tracesEnabled, [Call.TracesEnabled])
  else (isProfilingEnabled, [])

/-- The method `Platform::ShowDevDriverOverlay`: the answer and the calls made. -/
def ShowDevDriverOverlay (env : Env) (p : Platform) : Bool × List Call :=
  let showOverlay := false
  if p.m_pDevDriverServer ≠ none then (env.shouldShowOverlay, [Call.ShouldShowOverlay])
  else (showOverlay, [])

/-- The cached RGP server pointer is set only while there is a bus client. -/
def Platform.cachedPointersValid (p : Platform) : Prop :=
  p.m_pRgpServer ≠ none → p.m_pDevDriverServer ≠ none

/-- Whether a call is the entry into a bootstrap step of `Init`. -/
def Call.isStep : Call → Bool
  | Call.IPlatformInit => true
  | Call.EarlyInitDevDriver => true
  | Call.ConnectToOsInterface => true
  | Call.ReEnumerateDevices => true
  | Call.LateInitDevDriver => true
  | Call.InitProperties => true
  | _ => false

/-- The bootstrap steps of `Init` in their order. -/
def initOrder : List Call :=
  [Call.IPlatformInit, Call.EarlyInitDevDriver, Call.ConnectToOsInterface,
    Call.ReEnumerateDevices, Call.LateInitDevDriver, Call.InitProperties]

/-! ## Performance experiments -/

/-- The type `gpusize` is an unsigned 64-bit integer: subtraction wraps around. -/
def gpusizeSub (a b : Nat) : Nat := (a % 2 ^ 64 + (2 ^ 64 - b % 2 ^ 64)) % 2 ^ 64

/-- The type `gpusize` is an unsigned 64-bit integer: addition wraps around. -/
def gpusizeAdd (a b : Nat) : Nat := (a + b) % 2 ^ 64

/-- The bits of `m_perfExperimentFlags` the sources read. -/
structure PerfExperimentFlags where
  perfCtrsEnabled : Bool
  sqtTraceEnabled : Bool
  spmTraceEnabled : Bool
  deriving DecidableEq

/-- The GPU memory heaps the sources name. -/
inductive GpuHeap where
  | GpuHeapLocal
  | GpuHeapInvisible
  | GpuHeapGartUswc
  | GpuHeapGartCacheable
  deriving DecidableEq

/-- The output structure `GpuMemoryRequirements`. -/
structure GpuMemoryRequirements where
  size : Nat
  alignment : Nat
  heapCount : Nat
  heaps : List GpuHeap
  deriving DecidableEq

/-- The member `m_gpuMemory`: the memory object bound and the offset into it. -/
structure BoundGpuMemory where
  pGpuMemory : Option Nat
  offset : Nat
  deriving DecidableEq

/-- The fields of `PerfExperiment`. -/
structure PerfExperiment where
  m_memAlignment : Nat
  m_isFinalized : Bool
  m_perfExperimentFlags : PerfExperimentFlags
  m_globalBeginOffset : Nat
  m_globalEndOffset : Nat
  m_spmRingOffset : Nat
  m_totalMemSize : Nat
  m_gpuMemory : BoundGpuMemory
  deriving DecidableEq

/-- The constructor `PerfExperiment::PerfExperiment`: not finalized, no flag set, all offsets
and the total size 0. The member `m_gpuMemory` is default-constructed, with no memory bound. -/
def PerfExperiment.new (memAlignment : Nat) : PerfExperiment :=
  { m_memAlignment := memAlignment,
    m_isFinalized := false,
    m_perfExperimentFlags := ⟨false, false, false⟩,
    m_globalBeginOffset := 0,
    m_globalEndOffset := 0,
    m_spmRingOffset := 0,
    m_totalMemSize := 0,
    m_gpuMemory := ⟨none, 0⟩ }

/-- The structure `ResourceDescriptionPerfExperiment`. -/
structure ResourceDescriptionPerfExperiment where
  perfCounterSize : Nat
  sqttSize : Nat
  spmSize : Nat
  deriving DecidableEq

/-- The calls a performance experiment makes on its collaborators. -/
inductive PerfCall where
  /-- The assertion `PAL_ASSERT(m_isFinalized)` does not hold. -/
  | AssertFailed
  /-- The call `LogGpuMemoryResourceCreateEvent` for this experiment, with type
  `ResourceType::PerfExperiment` and this description. -/
  | LogGpuMemoryResourceCreateEvent (desc : ResourceDescriptionPerfExperiment)
  /-- The call `Device::ValidateBindObjectMemoryInput(pGpuMemory, offset, m_totalMemSize,
  m_memAlignment, false)`. -/
  | ValidateBindObjectMemoryInput (pGpuMemory : Option Nat) (offset objMemSize objAlignment : Nat)
  /-- The call `LogGpuMemoryResourceBindEvent` for this experiment. -/
  | LogGpuMemoryResourceBindEvent (pGpuMemory : Option Nat) (requiredGpuMemSize offset : Nat)
  deriving DecidableEq

/-- The method `PerfExperiment::GetGpuMemoryRequirements`: the output structure after the call,
given the structure before it, and the calls made. -/
def GetGpuMemoryRequirements (pe : PerfExperiment) (pGpuMemReqs : GpuMemoryRequirements) :
    GpuMemoryRequirements × List PerfCall :=
  let log := if pe.m_isFinalized then [] else [PerfCall.AssertFailed]
  let pGpuMemReqs :=
    if pe.m_perfExperimentFlags.sqtTraceEnabled || pe.m_perfExperimentFlags.spmTraceEnabled then
      { pGpuMemReqs with
        heapCount := 2,
        heaps := (pGpuMemReqs.heaps.set 0 GpuHeap.GpuHeapInvisible).set 1 GpuHeap.GpuHeapLocal }
    else
      { pGpuMemReqs with
        heapCount := 1,
        heaps := pGpuMemReqs.heaps.set 0 GpuHeap.GpuHeapGartUswc }
  ({ pGpuMemReqs with size := pe.m_totalMemSize, alignment := pe.m_memAlignment }, log)

/-- The resource description `PerfExperiment::BindGpuMemory` builds. -/
def bindDescription (pe : PerfExperiment) : ResourceDescriptionPerfExperiment :=
  let desc : ResourceDescriptionPerfExperiment := ⟨0, 0, 0⟩
  let desc :=
    if pe.m_perfExperimentFlags.perfCtrsEnabled then
      { desc with perfCounterSize :=
          gpusizeAdd (gpusizeSub pe.m_globalEndOffset pe.m_globalBeginOffset) 1 }
    else desc
  let desc :=
    if pe.m_perfExperimentFlags.sqtTraceEnabled then
      { desc with sqttSize := gpusizeAdd (gpusizeSub pe.m_spmRingOffset pe.m_globalEndOffset) 1 }
    else desc
  let desc :=
    if pe.m_perfExperimentFlags.spmTraceEnabled then
      { desc with spmSize := gpusizeAdd (gpusizeSub pe.m_totalMemSize pe.m_spmRingOffset) 1 }
    else desc
  desc

/-- The method `PerfExperiment::BindGpuMemory`: the result, the experiment afterwards and the
calls made. `validate` is `Device::ValidateBindObjectMemoryInput`, whose body is outside the
available sources. -/
def BindGpuMemory (validate : Option Nat → Nat → Nat → Nat → Bool → Result)
    (pe : PerfExperiment) (pGpuMemory : Option Nat) (offset : Nat) :
    Result × PerfExperiment × List PerfCall :=
  let desc := bindDescription pe
  let log := [PerfCall.LogGpuMemoryResourceCreateEvent desc]
  let (result, log) :=
    if pe.m_isFinalized = false then (Result.ErrorUnavailable, log)
    else
      (validate pGpuMemory offset pe.m_totalMemSize pe.m_memAlignment false,
        log ++ [PerfCall.ValidateBindObjectMemoryInput pGpuMemory offset pe.m_totalMemSize
          pe.m_memAlignment])
  if result = Result.Success then
    (result, { pe with m_gpuMemory := ⟨pGpuMemory, offset⟩ },
      log ++ [PerfCall.LogGpuMemoryResourceBindEvent pGpuMemory pe.m_totalMemSize offset])
  else (result, pe, log)

/-! ## Event logging (`platform.cpp`, `eventProvider.h`) -/

/-- Modelled from the spec: the `PalEvent` enumeration, which is declared in a header outside
the available sources. The first twelve constructors are the kinds `Platform::LogEvent` names
and `RmtToken` is named by `eventProvider.h`; `Other` stands for every other value. -/
inductive PalEvent where
  | CreateGpuMemory
  | DestroyGpuMemory
  | GpuMemoryResourceBind
  | GpuMemoryCpuMap
  | GpuMemoryCpuUnmap
  | GpuMemoryAddReference
  | GpuMemoryRemoveReference
  | GpuMemoryResourceCreate
  | GpuMemoryResourceDestroy
  | DebugName
  | GpuMemoryMisc
  | GpuMemorySnapshot
  | RmtToken
  | Other (id : Nat)
  deriving DecidableEq

/-- The sizes `sizeof` gives for the payload types of `Platform::LogEvent`; the types are
declared outside the available sources. -/
structure EventDataSizes where
  GpuMemoryResourceBindEventData : Nat
  ResourceCreateEventData : Nat
  ResourceDestroyEventData : Nat
  MiscEventData : Nat
  GpuMemorySnapshotEventData : Nat
  DebugNameEventData : Nat

/-- The calls `Platform::LogEvent` makes. A payload is handed on by reference, so a call on
the event provider is logged with the pointer `pEventData` it is given. -/
inductive EventCall where
  /-- The assertions `PAL_ASSERT_ALWAYS()` and `PAL_ASSERT_ALWAYS_MSG`. -/
  | AssertAlways
  /-- A `PAL_ASSERT` whose condition does not hold. -/
  | AssertFailed
  /-- The call `m_eventProvider.LogGpuMemoryResourceBindEvent`. -/
  | LogGpuMemoryResourceBindEvent (pEventData : Option Nat)
  /-- The call `m_eventProvider.LogGpuMemoryResourceCreateEvent`. -/
  | LogGpuMemoryResourceCreateEvent (pEventData : Option Nat)
  /-- The call `m_eventProvider.LogGpuMemoryResourceDestroyEvent`. -/
  | LogGpuMemoryResourceDestroyEvent (pEventData : Option Nat)
  /-- The call `m_eventProvider.LogGpuMemoryMiscEvent`. -/
  | LogGpuMemoryMiscEvent (pEventData : Option Nat)
  /-- The call `m_eventProvider.LogGpuMemorySnapshotEvent`. -/
  | LogGpuMemorySnapshotEvent (pEventData : Option Nat)
  /-- The call `m_eventProvider.LogDebugNameEvent`. -/
  | LogDebugNameEvent (pEventData : Option Nat)
  deriving DecidableEq

/-- The macro `PAL_ASSERT(cond)`: nothing when the condition holds. -/
def palAssert (cond : Bool) : List EventCall := if cond then [] else [EventCall.AssertFailed]

/-- The method `Platform::LogEvent`: the calls made. -/
def Platform.LogEvent (sizes : EventDataSizes) (eventId : PalEvent) (pEventData : Option Nat)
    (eventDataSize : Nat) : List EventCall :=
  match eventId with
  | PalEvent.CreateGpuMemory => [EventCall.AssertAlways]
  | PalEvent.DestroyGpuMemory => [EventCall.AssertAlways]
  | PalEvent.GpuMemoryCpuMap => [EventCall.AssertAlways]
  | PalEvent.GpuMemoryCpuUnmap => [EventCall.AssertAlways]
  | PalEvent.GpuMemoryAddReference => [EventCall.AssertAlways]
  | PalEvent.GpuMemoryRemoveReference => [EventCall.AssertAlways]
  | PalEvent.GpuMemoryResourceBind =>
    palAssert (pEventData != none && eventDataSize == sizes.GpuMemoryResourceBindEventData) ++
      [EventCall.LogGpuMemoryResourceBindEvent pEventData]
  | PalEvent.GpuMemoryResourceCreate =>
    palAssert (pEventData != none && eventDataSize == sizes.ResourceCreateEventData) ++
      [EventCall.LogGpuMemoryResourceCreateEvent pEventData]
  | PalEvent.GpuMemoryResourceDestroy =>
    palAssert (pEventData != none && eventDataSize == sizes.ResourceDestroyEventData) ++
      [EventCall.LogGpuMemoryResourceDestroyEvent pEventData]
  | PalEvent.GpuMemoryMisc =>
    palAssert (pEventData != none && eventDataSize == sizes.MiscEventData) ++
      [EventCall.LogGpuMemoryMiscEvent pEventData]
  | PalEvent.GpuMemorySnapshot =>
    palAssert (pEventData != none && eventDataSize == sizes.GpuMemorySnapshotEventData) ++
      [EventCall.LogGpuMemorySnapshotEvent pEventData]
  | PalEvent.DebugName =>
    palAssert (pEventData != none && eventDataSize == sizes.DebugNameEventData) ++
      [EventCall.LogDebugNameEvent pEventData]
  | _ => [EventCall.AssertAlways]

/-- Whether a call of `Platform::LogEvent` is a call on the event provider. -/
def EventCall.isProviderCall : EventCall → Bool
  | EventCall.AssertAlways => false
  | EventCall.AssertFailed => false
  | _ => true

/-- What the two sinks of the event provider receive. An RMT token is given by the bytes
`Data()` points to; `Size()` is their number. -/
inductive SinkCall where
  /-- The call `WriteEvent(eventId, pEventData, eventDataSize)` on the live event protocol. -/
  | WriteEvent (eventId : PalEvent) (pEventData : List Nat) (eventDataSize : Nat)
  /-- The call `m_eventService.WriteTokenData(token)` on the event service mirror. -/
  | ServiceWriteTokenData (token : List Nat)
  deriving DecidableEq

/-- The method `EventProvider::WriteTokenData`, continuing a log of sink calls. -/
def EventProvider.WriteTokenData (token : List Nat) (log : List SinkCall) : List SinkCall :=
  let log := log ++ [SinkCall.WriteEvent PalEvent.RmtToken token token.length]
  log ++ [SinkCall.ServiceWriteTokenData token]

/-- The tokens the live event protocol receives, in order. -/
def liveTokens : List SinkCall → List (List Nat)
  | [] => []
  | SinkCall.WriteEvent _ pEventData _ :: cs => pEventData :: liveTokens cs
  | SinkCall.ServiceWriteTokenData _ :: cs => liveTokens cs

/-- The tokens the event service mirror receives, in order. -/
def serviceTokens : List SinkCall → List (List Nat)
  | [] => []
  | SinkCall.WriteEvent _ _ _ :: cs => serviceTokens cs
  | SinkCall.ServiceWriteTokenData token :: cs => token :: serviceTokens cs

/-- The enable state of the event provider: `IsProviderEnabled()` and, for each event,
`IsEventEnabled(eventId)`. -/
structure EventProvider where
  providerEnabled : Bool
  eventEnabled : PalEvent → Bool

/-- Modelled from the spec: `EventProvider::ShouldLog`, whose body is outside the available
sources. An event is sent "if the provider and event are enabled". -/
def EventProvider.ShouldLog (ep : EventProvider) (eventId : PalEvent) : Bool :=
  ep.providerEnabled && ep.eventEnabled eventId

/-- Modelled from the spec: `EventProvider::LogEvent` as the `Log*Event` entry points reach
it; the bodies are outside the available sources. It "translates a single domain event into one
or more Tokens and forwards them" to the two sinks and "must perform this translation only if
`IsEnabled()` at call time". The translation into tokens is not specified and is given by
`translate`. -/
def EventProvider.LogEvent (translate : PalEvent → List Nat → List (List Nat))
    (ep : EventProvider) (eventId : PalEvent) (eventData : List Nat) (log : List SinkCall) :
    List SinkCall :=
  if ep.ShouldLog eventId then
    (translate eventId eventData).foldl (fun log token => EventProvider.WriteTokenData token log)
      log
  else log

/-! ## ASIC identification (`amdgpu_asic.h`)

Family and revision ids are natural numbers; a macro that yields a truth value is a function
to `Bool`; a range macro, which expands to two arguments, is a pair. -/

/-- The macro `FAMILY_UNKNOWN`. -/
def FAMILY_UNKNOWN : Nat := 0x00

/-- The macro `FAMILY_TN`. -/
def FAMILY_TN : Nat := 0x69

/-- The macro `FAMILY_SI`. -/
def FAMILY_SI : Nat := 0x6E

/-- The macro `FAMILY_CI`. -/
def FAMILY_CI : Nat := 0x78

/-- The macro `FAMILY_KV`. -/
def FAMILY_KV : Nat := 0x7D

/-- The macro `FAMILY_VI`. -/
def FAMILY_VI : Nat := 0x82

/-- The macro `FAMILY_POLARIS`. -/
def FAMILY_POLARIS : Nat := 0x82

/-- The macro `FAMILY_CZ`. -/
def FAMILY_CZ : Nat := 0x87

/-- The macro `FAMILY_AI`. -/
def FAMILY_AI : Nat := 0x8D

/-- The macro `FAMILY_RV`. -/
def FAMILY_RV : Nat := 0x8E

/-- The macro `FAMILY_NV`. -/
def FAMILY_NV : Nat := 0x8F

/-- The macro `FAMILY_IS(f, fn)`, with the family given by its id. -/
def FAMILY_IS (f fn : Nat) : Bool := f == fn

/-- The macro `AMDGPU_TAHITI_RANGE`. -/
def AMDGPU_TAHITI_RANGE : Nat × Nat := (0x05, 0x14)

/-- The macro `AMDGPU_PITCAIRN_RANGE`. -/
def AMDGPU_PITCAIRN_RANGE : Nat × Nat := (0x15, 0x28)

/-- The macro `AMDGPU_CAPEVERDE_RANGE`. -/
def AMDGPU_CAPEVERDE_RANGE : Nat × Nat := (0x29, 0x3C)

/-- The macro `AMDGPU_OLAND_RANGE`. -/
def AMDGPU_OLAND_RANGE : Nat × Nat := (0x3C, 0x46)

/-- The macro `AMDGPU_HAINAN_RANGE`. -/
def AMDGPU_HAINAN_RANGE : Nat × Nat := (0x46, 0xFF)

/-- The macro `AMDGPU_BONAIRE_RANGE`. -/
def AMDGPU_BONAIRE_RANGE : Nat × Nat := (0x14, 0x28)

/-- The macro `AMDGPU_HAWAII_RANGE`. -/
def AMDGPU_HAWAII_RANGE : Nat × Nat := (0x28, 0x3C)

/-- The macro `AMDGPU_SPECTRE_RANGE`. -/
def AMDGPU_SPECTRE_RANGE : Nat × Nat := (0x01, 0x41)

/-- The macro `AMDGPU_SPOOKY_RANGE`. -/
def AMDGPU_SPOOKY_RANGE : Nat × Nat := (0x41, 0x81)

/-- The macro `AMDGPU_KALINDI_RANGE`. -/
def AMDGPU_KALINDI_RANGE : Nat × Nat := (0x81, 0xA1)

/-- The macro `AMDGPU_GODAVARI_RANGE`. -/
def AMDGPU_GODAVARI_RANGE : Nat × Nat := (0xA1, 0xC0)

/-- The macro `AMDGPU_ICELAND_RANGE`. -/
def AMDGPU_ICELAND_RANGE : Nat × Nat := (0x01, 0x14)

/-- The macro `AMDGPU_TONGA_RANGE`. -/
def AMDGPU_TONGA_RANGE : Nat × Nat := (0x14, 0x28)

/-- The macro `AMDGPU_FIJI_RANGE`. -/
def AMDGPU_FIJI_RANGE : Nat × Nat := (0x3C, 0x50)

/-- The macro `AMDGPU_POLARIS10_RANGE`. -/
def AMDGPU_POLARIS10_RANGE : Nat × Nat := (0x50, 0x5A)

/-- The macro `AMDGPU_POLARIS11_RANGE`. -/
def AMDGPU_POLARIS11_RANGE : Nat × Nat := (0x5A, 0x64)

/-- The macro `AMDGPU_POLARIS12_RANGE`. -/
def AMDGPU_POLARIS12_RANGE : Nat × Nat := (0x64, 0x6E)

/-- The macro `AMDGPU_CARRIZO_RANGE`. -/
def AMDGPU_CARRIZO_RANGE : Nat × Nat := (0x01, 0x21)

/-- The macro `AMDGPU_BRISTOL_RANGE`. -/
def AMDGPU_BRISTOL_RANGE : Nat × Nat := (0x10, 0x21)

/-- The macro `AMDGPU_STONEY_RANGE`. -/
def AMDGPU_STONEY_RANGE : Nat × Nat := (0x61, 0xFF)

/-- The macro `AMDGPU_VEGA10_RANGE`. -/
def AMDGPU_VEGA10_RANGE : Nat × Nat := (0x01, 0x14)

/-- The macro `AMDGPU_VEGA12_RANGE`. -/
def AMDGPU_VEGA12_RANGE : Nat × Nat := (0x14, 0x28)

/-- The macro `AMDGPU_VEGA20_RANGE`. -/
def AMDGPU_VEGA20_RANGE : Nat × Nat := (0x28, 0xFF)

/-- The macro `AMDGPU_RAVEN_RANGE`. -/
def AMDGPU_RAVEN_RANGE : Nat × Nat := (0x01, 0x81)

/-- The macro `AMDGPU_RAVEN2_RANGE`. -/
def AMDGPU_RAVEN2_RANGE : Nat × Nat := (0x81, 0x90)

/-- The macro `AMDGPU_RENOIR_RANGE`. -/
def AMDGPU_RENOIR_RANGE : Nat × Nat := (0x91, 0xFF)

/-- The macro `AMDGPU_NAVI10_RANGE`. -/
def AMDGPU_NAVI10_RANGE : Nat × Nat := (0x01, 0x0A)

/-- The macro `AMDGPU_NAVI12_RANGE`. -/
def AMDGPU_NAVI12_RANGE : Nat × Nat := (0x0A, 0x14)

/-- The macro `AMDGPU_NAVI14_RANGE`. -/
def AMDGPU_NAVI14_RANGE : Nat × Nat := (0x14, 0x28)

/-- The macro `AMDGPU_NAVI21_RANGE`. -/
def AMDGPU_NAVI21_RANGE : Nat × Nat := (0x28, 0x32)

/-- The macro `AMDGPU_NAVI22_RANGE`. -/
def AMDGPU_NAVI22_RANGE : Nat × Nat := (0x32, 0x3C)

/-- The macro `AMDGPU_RANGE_HELPER(val, min, max)`. -/
def AMDGPU_RANGE_HELPER (val min max : Nat) : Bool := decide (val ≥ min) && decide (val < max)

/-- The macro `AMDGPU_IN_RANGE(val, ...)`, with the two arguments of the range as a pair. -/
def AMDGPU_IN_RANGE (val : Nat) (range : Nat × Nat) : Bool :=
  AMDGPU_RANGE_HELPER val range.1 range.2

/-- The macro `ASICREV_IS(r, rn)`, with the revision given by its range. -/
def ASICREV_IS (r : Nat) (rn : Nat × Nat) : Bool := AMDGPU_IN_RANGE r rn

/-- The macro `AMDGPU_IS(f, r, fn, rn)`. -/
def AMDGPU_IS (f r fn : Nat) (rn : Nat × Nat) : Bool := FAMILY_IS f fn && ASICREV_IS r rn

/-- The macro `AMDGPU_IS_TAHITI(f, r)`. -/
def AMDGPU_IS_TAHITI (f r : Nat) : Bool := AMDGPU_IS f r FAMILY_SI AMDGPU_TAHITI_RANGE

/-- The macro `AMDGPU_IS_PITCAIRN(f, r)`. -/
def AMDGPU_IS_PITCAIRN (f r : Nat) : Bool := AMDGPU_IS f r FAMILY_SI AMDGPU_PITCAIRN_RANGE

/-- The macro `AMDGPU_IS_CAPEVERDE(f, r)`. -/
def AMDGPU_IS_CAPEVERDE (f r : Nat) : Bool := AMDGPU_IS f r FAMILY_SI AMDGPU_CAPEVERDE_RANGE

/-- The macro `AMDGPU_IS_OLAND(f, r)`. -/
def AMDGPU_IS_OLAND (f r : Nat) : Bool := AMDGPU_IS f r FAMILY_SI AMDGPU_OLAND_RANGE

/-- The macro `AMDGPU_IS_HAINAN(f, r)`. -/
def AMDGPU_IS_HAINAN (f r : Nat) : Bool := AMDGPU_IS f r FAMILY_SI AMDGPU_HAINAN_RANGE

/-- The macro `AMDGPU_IS_BONAIRE(f, r)`. -/
def AMDGPU_IS_BONAIRE (f r : Nat) : Bool := AMDGPU_IS f r FAMILY_CI AMDGPU_BONAIRE_RANGE

/-- The macro `AMDGPU_IS_HAWAII(f, r)`. -/
def AMDGPU_IS_HAWAII (f r : Nat) : Bool := AMDGPU_IS f r FAMILY_CI AMDGPU_HAWAII_RANGE

/-- The macro `AMDGPU_IS_SPECTRE(f, r)`. -/
def AMDGPU_IS_SPECTRE (f r : Nat) : Bool := AMDGPU_IS f r FAMILY_KV AMDGPU_SPECTRE_RANGE

/-- The macro `AMDGPU_IS_SPOOKY(f, r)`. -/
def AMDGPU_IS_SPOOKY (f r : Nat) : Bool := AMDGPU_IS f r FAMILY_KV AMDGPU_SPOOKY_RANGE

/-- The macro `AMDGPU_IS_KALINDI(f, r)`. -/
def AMDGPU_IS_KALINDI (f r : Nat) : Bool := AMDGPU_IS f r FAMILY_KV AMDGPU_KALINDI_RANGE

/-- The macro `AMDGPU_IS_GODAVARI(f, r)`. -/
def AMDGPU_IS_GODAVARI (f r : Nat) : Bool := AMDGPU_IS f r FAMILY_KV AMDGPU_GODAVARI_RANGE

/-- The macro `AMDGPU_IS_ICELAND(f, r)`. -/
def AMDGPU_IS_ICELAND (f r : Nat) : Bool := AMDGPU_IS f r FAMILY_VI AMDGPU_ICELAND_RANGE

/-- The macro `AMDGPU_IS_TONGA(f, r)`. -/
def AMDGPU_IS_TONGA (f r : Nat) : Bool := AMDGPU_IS f r FAMILY_VI AMDGPU_TONGA_RANGE

/-- The macro `AMDGPU_IS_FIJI(f, r)`. -/
def AMDGPU_IS_FIJI (f r : Nat) : Bool := AMDGPU_IS f r FAMILY_VI AMDGPU_FIJI_RANGE

/-- The macro `AMDGPU_IS_POLARIS10(f, r)`. -/
def AMDGPU_IS_POLARIS10 (f r : Nat) : Bool := AMDGPU_IS f r FAMILY_POLARIS AMDGPU_POLARIS10_RANGE

/-- The macro `AMDGPU_IS_POLARIS11(f, r)`. -/
def AMDGPU_IS_POLARIS11 (f r : Nat) : Bool := AMDGPU_IS f r FAMILY_POLARIS AMDGPU_POLARIS11_RANGE

/-- The macro `AMDGPU_IS_POLARIS12(f, r)`. -/
def AMDGPU_IS_POLARIS12 (f r : Nat) : Bool := AMDGPU_IS f r FAMILY_POLARIS AMDGPU_POLARIS12_RANGE

/-- The macro `AMDGPU_IS_CARRIZO(f, r)`. -/
def AMDGPU_IS_CARRIZO (f r : Nat) : Bool := AMDGPU_IS f r FAMILY_CZ AMDGPU_CARRIZO_RANGE

/-- The macro `AMDGPU_IS_BRISTOL(f, r)`. -/
def AMDGPU_IS_BRISTOL (f r : Nat) : Bool := AMDGPU_IS f r FAMILY_CZ AMDGPU_BRISTOL_RANGE

/-- The macro `AMDGPU_IS_STONEY(f, r)`. -/
def AMDGPU_IS_STONEY (f r : Nat) : Bool := AMDGPU_IS f r FAMILY_CZ AMDGPU_STONEY_RANGE

/-- The macro `AMDGPU_IS_VEGA10(f, r)`. -/
def AMDGPU_IS_VEGA10 (f r : Nat) : Bool := AMDGPU_IS f r FAMILY_AI AMDGPU_VEGA10_RANGE

/-- The macro `AMDGPU_IS_VEGA12(f, r)`. -/
def AMDGPU_IS_VEGA12 (f r : Nat) : Bool := AMDGPU_IS f r FAMILY_AI AMDGPU_VEGA12_RANGE

/-- The macro `AMDGPU_IS_VEGA20(f, r)`. -/
def AMDGPU_IS_VEGA20 (f r : Nat) : Bool := AMDGPU_IS f r FAMILY_AI AMDGPU_VEGA20_RANGE

/-- The macro `AMDGPU_IS_RAVEN(f, r)`. -/
def AMDGPU_IS_RAVEN (f r : Nat) : Bool := AMDGPU_IS f r FAMILY_RV AMDGPU_RAVEN_RANGE

/-- The macro `AMDGPU_IS_RAVEN2(f, r)`. -/
def AMDGPU_IS_RAVEN2 (f r : Nat) : Bool := AMDGPU_IS f r FAMILY_RV AMDGPU_RAVEN2_RANGE

/-- The macro `AMDGPU_IS_RENOIR(f, r)`. -/
def AMDGPU_IS_RENOIR (f r : Nat) : Bool := AMDGPU_IS f r FAMILY_RV AMDGPU_RENOIR_RANGE

/-- The macro `AMDGPU_IS_NAVI10(f, r)`. -/
def AMDGPU_IS_NAVI10 (f r : Nat) : Bool := AMDGPU_IS f r FAMILY_NV AMDGPU_NAVI10_RANGE

/-- The macro `AMDGPU_IS_NAVI12(f, r)`. -/
def AMDGPU_IS_NAVI12 (f r : Nat) : Bool := AMDGPU_IS f r FAMILY_NV AMDGPU_NAVI12_RANGE

/-- The macro `AMDGPU_IS_NAVI14(f, r)`. -/
def AMDGPU_IS_NAVI14 (f r : Nat) : Bool := AMDGPU_IS f r FAMILY_NV AMDGPU_NAVI14_RANGE

/-- The macro `AMDGPU_IS_NAVI21(f, r)`. -/
def AMDGPU_IS_NAVI21 (f r : Nat) : Bool := AMDGPU_IS f r FAMILY_NV AMDGPU_NAVI21_RANGE

/-- The macro `AMDGPU_IS_NAVI22(f, r)`. -/
def AMDGPU_IS_NAVI22 (f r : Nat) : Bool := AMDGPU_IS f r FAMILY_NV AMDGPU_NAVI22_RANGE

/-- The macro `AMDGPU_IS_NAVI(f, r)`: the whole family, whatever the revision. -/
def AMDGPU_IS_NAVI (f _r : Nat) : Bool := FAMILY_IS f FAMILY_NV

/-- The chips that have a predicate `AMDGPU_IS_<chip>` of their own. -/
inductive Chip where
  | TAHITI
  | PITCAIRN
  | CAPEVERDE
  | OLAND
  | HAINAN
  | BONAIRE
  | HAWAII
  | SPECTRE
  | SPOOKY
  | KALINDI
  | GODAVARI
  | ICELAND
  | TONGA
  | FIJI
  | POLARIS10
  | POLARIS11
  | POLARIS12
  | CARRIZO
  | BRISTOL
  | STONEY
  | VEGA10
  | VEGA12
  | VEGA20
  | RAVEN
  | RAVEN2
  | RENOIR
  | NAVI10
  | NAVI12
  | NAVI14
  | NAVI21
  | NAVI22
  deriving DecidableEq

/-- The per-chip predicates, in the order of the header. -/
def perChipPredicates : List (Chip × (Nat → Nat → Bool)) :=
  [(Chip.TAHITI, AMDGPU_IS_TAHITI),
    (Chip.PITCAIRN, AMDGPU_IS_PITCAIRN),
    (Chip.CAPEVERDE, AMDGPU_IS_CAPEVERDE),
    (Chip.OLAND, AMDGPU_IS_OLAND),
    (Chip.HAINAN, AMDGPU_IS_HAINAN),
    (Chip.BONAIRE, AMDGPU_IS_BONAIRE),
    (Chip.HAWAII, AMDGPU_IS_HAWAII),
    (Chip.SPECTRE, AMDGPU_IS_SPECTRE),
    (Chip.SPOOKY, AMDGPU_IS_SPOOKY),
    (Chip.KALINDI, AMDGPU_IS_KALINDI),
    (Chip.GODAVARI, AMDGPU_IS_GODAVARI),
    (Chip.ICELAND, AMDGPU_IS_ICELAND),
    (Chip.TONGA, AMDGPU_IS_TONGA),
    (Chip.FIJI, AMDGPU_IS_FIJI),
    (Chip.POLARIS10, AMDGPU_IS_POLARIS10),
    (Chip.POLARIS11, AMDGPU_IS_POLARIS11),
    (Chip.POLARIS12, AMDGPU_IS_POLARIS12),
    (Chip.CARRIZO, AMDGPU_IS_CARRIZO),
    (Chip.BRISTOL, AMDGPU_IS_BRISTOL),
    (Chip.STONEY, AMDGPU_IS_STONEY),
    (Chip.VEGA10, AMDGPU_IS_VEGA10),
    (Chip.VEGA12, AMDGPU_IS_VEGA12),
    (Chip.VEGA20, AMDGPU_IS_VEGA20),
    (Chip.RAVEN, AMDGPU_IS_RAVEN),
    (Chip.RAVEN2, AMDGPU_IS_RAVEN2),
    (Chip.RENOIR, AMDGPU_IS_RENOIR),
    (Chip.NAVI10, AMDGPU_IS_NAVI10),
    (Chip.NAVI12, AMDGPU_IS_NAVI12),
    (Chip.NAVI14, AMDGPU_IS_NAVI14),
    (Chip.NAVI21, AMDGPU_IS_NAVI21),
    (Chip.NAVI22, AMDGPU_IS_NAVI22)]

/-- The family and the revision range each per-chip predicate is made of, in the same
order. -/
def chipTable : List (Chip × Nat × (Nat × Nat)) :=
  [(Chip.TAHITI, FAMILY_SI, AMDGPU_TAHITI_RANGE),
    (Chip.PITCAIRN, FAMILY_SI, AMDGPU_PITCAIRN_RANGE),
    (Chip.CAPEVERDE, FAMILY_SI, AMDGPU_CAPEVERDE_RANGE),
    (Chip.OLAND, FAMILY_SI, AMDGPU_OLAND_RANGE),
    (Chip.HAINAN, FAMILY_SI, AMDGPU_HAINAN_RANGE),
    (Chip.BONAIRE, FAMILY_CI, AMDGPU_BONAIRE_RANGE),
    (Chip.HAWAII, FAMILY_CI, AMDGPU_HAWAII_RANGE),
    (Chip.SPECTRE, FAMILY_KV, AMDGPU_SPECTRE_RANGE),
    (Chip.SPOOKY, FAMILY_KV, AMDGPU_SPOOKY_RANGE),
    (Chip.KALINDI, FAMILY_KV, AMDGPU_KALINDI_RANGE),
    (Chip.GODAVARI, FAMILY_KV, AMDGPU_GODAVARI_RANGE),
    (Chip.ICELAND, FAMILY_VI, AMDGPU_ICELAND_RANGE),
    (Chip.TONGA, FAMILY_VI, AMDGPU_TONGA_RANGE),
    (Chip.FIJI, FAMILY_VI, AMDGPU_FIJI_RANGE),
    (Chip.POLARIS10, FAMILY_POLARIS, AMDGPU_POLARIS10_RANGE),
    (Chip.POLARIS11, FAMILY_POLARIS, AMDGPU_POLARIS11_RANGE),
    (Chip.POLARIS12, FAMILY_POLARIS, AMDGPU_POLARIS12_RANGE),
    (Chip.CARRIZO, FAMILY_CZ, AMDGPU_CARRIZO_RANGE),
    (Chip.BRISTOL, FAMILY_CZ, AMDGPU_BRISTOL_RANGE),
    (Chip.STONEY, FAMILY_CZ, AMDGPU_STONEY_RANGE),
    (Chip.VEGA10, FAMILY_AI, AMDGPU_VEGA10_RANGE),
    (Chip.VEGA12, FAMILY_AI, AMDGPU_VEGA12_RANGE),
    (Chip.VEGA20, FAMILY_AI, AMDGPU_VEGA20_RANGE),
    (Chip.RAVEN, FAMILY_RV, AMDGPU_RAVEN_RANGE),
    (Chip.RAVEN2, FAMILY_RV, AMDGPU_RAVEN2_RANGE),
    (Chip.RENOIR, FAMILY_RV, AMDGPU_RENOIR_RANGE),
    (Chip.NAVI10, FAMILY_NV, AMDGPU_NAVI10_RANGE),
    (Chip.NAVI12, FAMILY_NV, AMDGPU_NAVI12_RANGE),
    (Chip.NAVI14, FAMILY_NV, AMDGPU_NAVI14_RANGE),
    (Chip.NAVI21, FAMILY_NV, AMDGPU_NAVI21_RANGE),
    (Chip.NAVI22, FAMILY_NV, AMDGPU_NAVI22_RANGE)]

/-- Whether two entries of the chip table cannot both match: the families differ or the
revision ranges do not meet. -/
def chipsApart (a b : Chip × Nat × (Nat × Nat)) : Bool :=
  a.2.1 != b.2.1 || decide (a.2.2.2 ≤ b.2.2.1) || decide (b.2.2.2 ≤ a.2.2.1)

/-! ## Sample platforms and environments -/

/-- A build against a client interface at the driver-control cleanup version. -/
def cfgNew : BuildConfig :=
  { GPUOPEN_CLIENT_INTERFACE_MAJOR_VERSION := 42,
    GPUOPEN_DRIVER_CONTROL_CLEANUP_VERSION := 42,
    PAL_CLIENT_INTERFACE_MAJOR_VERSION := 650,
    PAL_ENABLE_PRINTS_ASSERTS := false }

/-- A build against a client interface older than the driver-control cleanup version. -/
def cfgOld : BuildConfig :=
  { GPUOPEN_CLIENT_INTERFACE_MAJOR_VERSION := 41,
    GPUOPEN_DRIVER_CONTROL_CLEANUP_VERSION := 42,
    PAL_CLIENT_INTERFACE_MAJOR_VERSION := 650,
    PAL_ENABLE_PRINTS_ASSERTS := false }

/-- An environment in which everything succeeds: the bus is reachable, the client is
allocated at address 1 and initialises, a tool is found, the RGP server is at address 2, and
one device that supports RGP traces is enumerated. -/
def envReady : Env :=
  { iPlatformInit := Result.Success,
    isConnectionAvailable := true,
    newDevDriverServer := some 1,
    serverInit := DevDriver.Result.Success,
    findFirstClient := DevDriver.Result.Success,
    getRGPServer := some 2,
    settingsLoaderInit := Result.Success,
    eventProviderInit := Result.Success,
    connectToOsInterface := Result.Success,
    reQueryDevices := (Result.Success, [⟨true⟩]),
    tracesEnabled := true,
    shouldShowOverlay := true }

/-- As `envReady`, but no message-bus endpoint is reachable. -/
def envNoBus : Env := { envReady with isConnectionAvailable := false }

/-- As `envReady`, but the allocation of the bus client fails. -/
def envNoMemory : Env := { envReady with newDevDriverServer := none }

/-- As `envReady`, but `Initialize()` of the bus client fails. -/
def envInitFails : Env := { envReady with serverInit := DevDriver.Result.Error }

/-- As `envReady`, but discovery finds no tool in time. -/
def envNoTool : Env := { envReady with findFirstClient := DevDriver.Result.NotReady }

/-- A platform with a bus client at address 1, the RGP server cached at address 2, the
client's trace flag set and one device that supports RGP traces. -/
def platformReady : Platform :=
  { m_pDevice := [⟨true⟩],
    m_pDevDriverServer := some 1,
    m_pRgpServer := some 2,
    supportRgpTraces := true }

end Pal

namespace DevDriver

/-! ## Helper lemmas: the tokenizer -/

theorem contains_space (c : Char) : [' '].contains c = (c == ' ') := by
  cases h : (c == ' ') <;> simp [List.contains, List.elem, h]

/-- Splitting unfolds at the first space. -/
theorem splitOn_space_unfold (s : List Char) :
    s.splitOn ' ' = s.takeWhile (fun c => !(c == ' ')) ::
      (match s.dropWhile (fun c => !(c == ' ')) with
       | [] => []
       | _ :: r => r.splitOn ' ') := by
  induction s with
  | nil => rfl
  | cons c s ih =>
    unfold List.splitOn at ih ⊢
    rw [List.splitOnP_cons]
    by_cases h : (c == ' ') = true
    · simp [h]
    · simp only [h] at ih ⊢
      rw [ih]
      simp [List.takeWhile, List.dropWhile, h]

/-- A leading space contributes no token. -/
theorem tokens_cons_space (s : List Char) : tokens (' ' :: s) = tokens s := by
  unfold tokens List.splitOn
  rw [List.splitOnP_cons]
  simp

theorem tokens_nil : tokens [] = [] := by decide

/-- Leading spaces contribute no token. -/
theorem tokens_dropWhile (s : List Char) :
    tokens (s.dropWhile (fun c => c == ' ')) = tokens s := by
  induction s with
  | nil => rfl
  | cons c s ih =>
    by_cases h : (c == ' ') = true
    · have hc : c = ' ' := by simpa using h
      subst hc
      rw [tokens_cons_space]
      simpa [List.dropWhile] using ih
    · simp [List.dropWhile, h]

/-- A string starting with a non-space starts with a token. -/
theorem tokens_cons_ne (c : Char) (s : List Char) (h : (c == ' ') = false) :
    tokens (c :: s) = (c :: s).takeWhile (fun c => !(c == ' ')) ::
      tokens (((c :: s).dropWhile (fun c => !(c == ' '))).drop 1) := by
  unfold tokens
  rw [splitOn_space_unfold (c :: s)]
  have hne : ((c :: s).takeWhile (fun c => !(c == ' '))).isEmpty = false := by
    simp [List.takeWhile, h]
  rw [List.filter_cons]
  simp only [hne, Bool.not_false, if_true]
  congr 1
  cases hd : (c :: s).dropWhile (fun c => !(c == ' ')) with
  | nil => simp
  | cons d r => simp

/-- The first character left after skipping spaces is not a space. -/
theorem dropWhile_space_head (s : List Char) (c : Char) (cs : List Char)
    (h : s.dropWhile (fun c => c == ' ') = c :: cs) : (c == ' ') = false := by
  have h1 := List.head_dropWhile_not (fun c => c == ' ') s (by rw [h]; simp)
  simpa [h] using h1

/-- The context a successful `Strtok` call leaves is shorter than the buffer it started on. -/
theorem strtok_rest_length (s : List Char) (c : Char) (cs : List Char)
    (h : s.dropWhile (fun c => c == ' ') = c :: cs) :
    (((c :: cs).dropWhile (fun c => !(c == ' '))).drop 1).length < s.length := by
  have hc := dropWhile_space_head s c cs h
  have h1 : (c :: cs).length ≤ s.length := by
    rw [← h]; exact (List.dropWhile_suffix _).length_le
  have h2 : ((c :: cs).dropWhile (fun c => !(c == ' '))) = cs.dropWhile (fun c => !(c == ' ')) := by
    simp [List.dropWhile, hc]
  have h3 : (cs.dropWhile (fun c => !(c == ' '))).length ≤ cs.length :=
    (List.dropWhile_suffix _).length_le
  rw [h2, List.length_drop]
  simp only [List.length_cons] at h1
  omega

/-- A call that starts on a string behaves as a call that continues on it. -/
theorem Strtok_some (s : List Char) (d : List Char) (ctx : Option (List Char)) :
    Strtok (some s) d ctx = Strtok none d (some s) := rfl

/-- A buffer without tokens: `Strtok` returns null. -/
theorem Strtok_of_tokens_nil (s : List Char) (h : tokens s = []) :
    Strtok none [' '] (some s) = (none, some []) := by
  unfold Strtok
  simp only [contains_space]
  cases hd : s.dropWhile (fun c => c == ' ') with
  | nil => rfl
  | cons c cs =>
    have hc := dropWhile_space_head s c cs hd
    rw [← tokens_dropWhile, hd, tokens_cons_ne c cs hc] at h
    simp at h

/-- A buffer with tokens: `Strtok` returns the first one and leaves a shorter context that holds
the others. -/
theorem Strtok_of_tokens_cons (s t : List Char) (ts : List (List Char)) (h : tokens s = t :: ts) :
    ∃ s1, Strtok none [' '] (some s) = (some t, some s1) ∧ tokens s1 = ts ∧
      s1.length < s.length := by
  unfold Strtok
  simp only [contains_space]
  cases hd : s.dropWhile (fun c => c == ' ') with
  | nil =>
    rw [← tokens_dropWhile, hd, tokens_nil] at h
    simp at h
  | cons c cs =>
    have hc := dropWhile_space_head s c cs hd
    rw [← tokens_dropWhile, hd, tokens_cons_ne c cs hc] at h
    simp only [List.cons.injEq] at h
    refine ⟨((c :: cs).dropWhile (fun c => !(c == ' '))).drop 1, ?_, h.2, strtok_rest_length s c cs hd⟩
    simp only [h.1]

/-- The arguments the `diag-echo` loop writes after the first one: a space before each. -/
theorem echoLoop_eq (fuel : Nat) (s : List Char) (log : List Call) (hf : s.length < fuel) :
    echoLoop fuel (some s) log =
      log ++ (tokens s).flatMap (fun t => [Call.Write ' ', Call.WriteBytes t]) := by
  induction fuel generalizing s log with
  | zero => omega
  | succ n ih =>
    unfold echoLoop pArgDelim
    cases ht : tokens s with
    | nil => simp [Strtok_of_tokens_nil s ht]
    | cons t ts =>
      obtain ⟨s1, h1, h2, h3⟩ := Strtok_of_tokens_cons s t ts ht
      simp only [h1]
      rw [ih s1 _ (by omega), h2]
      simp

/-! ## Helper lemmas: closed forms of `HandleRequest` -/

/-- An absent argument string: nothing is done. -/
theorem HandleRequest_null (info : ServiceInfo) (ctx : RequestContext)
    (hargs : ctx.requestArguments = none) :
    HandleRequest info ctx = (Result.Unavailable, []) := by
  simp [HandleRequest, Strtok, hargs]

/-- An argument string without a token: nothing is done. -/
theorem HandleRequest_no_token (info : ServiceInfo) (ctx : RequestContext) (s : List Char)
    (hargs : ctx.requestArguments = some s) (htok : tokens s = []) :
    HandleRequest info ctx = (Result.Unavailable, []) := by
  simp [HandleRequest, hargs, pArgDelim, Strtok_some, Strtok_of_tokens_nil s htok]

/-- The `for` loop of the `services` branch appends the calls of each service in order. -/
theorem services_foldl (l : List IService) (log : List Call) :
    l.foldl (fun log pService => log ++
      [Call.BeginMap,
       Call.KeyAndValueStr "Name" pService.name,
       Call.KeyAndValueNum "Version" pService.version,
       Call.EndMap]) log = log ++ l.flatMap serviceCalls := by
  induction l generalizing log with
  | nil => simp
  | cons a l ih => simp [List.foldl, ih, serviceCalls]

/-- The `services` command in closed form. -/
theorem HandleRequest_services (info : ServiceInfo) (ctx : RequestContext) (s : List Char)
    (rest : List (List Char)) (hargs : ctx.requestArguments = some s)
    (htok : tokens s = "services".toList :: rest) :
    HandleRequest info ctx =
      if info.queryResult = Result.Success then
        if ctx.beginJsonResponse = Result.Success then
          (ctx.writerEnd,
            [Call.QueryRegisteredServices, Call.BeginJsonResponse, Call.BeginMap,
              Call.KeyAndBeginList "Services"] ++ info.registeredServices.flatMap serviceCalls ++
              [Call.EndList, Call.EndMap, Call.End])
        else (ctx.beginJsonResponse, [Call.QueryRegisteredServices, Call.BeginJsonResponse])
      else (info.queryResult, [Call.QueryRegisteredServices]) := by
  obtain ⟨s1, h1, -, -⟩ := Strtok_of_tokens_cons s _ rest htok
  simp only [HandleRequest, hargs, pArgDelim, Strtok_some, h1, services_foldl]
  by_cases hq : info.queryResult = Result.Success
  · by_cases hb : ctx.beginJsonResponse = Result.Success
    · simp [hq, hb]
    · simp [hq, hb]
  · simp [hq]

/-- The `diag-echo` command in closed form. -/
theorem HandleRequest_diag_echo (info : ServiceInfo) (ctx : RequestContext) (s : List Char)
    (rest : List (List Char)) (hargs : ctx.requestArguments = some s)
    (htok : tokens s = "diag-echo".toList :: rest) :
    HandleRequest info ctx =
      if ctx.beginByteResponse = Result.Success then
        (ctx.writerEnd,
          [Call.BeginByteResponse] ++ argCalls rest ++ [Call.GetPostData] ++
            postCalls (!rest.isEmpty) ctx.postData ++ [Call.Write '\x00', Call.End])
      else
        (ctx.beginByteResponse,
          [Call.BeginByteResponse,
            Call.WarnReason "Failed to begin a ByteResponse for internal://diag-echo"]) := by
  obtain ⟨s1, h1, h2, -⟩ := Strtok_of_tokens_cons s _ rest htok
  have hne : ¬ ("diag-echo".toList = "services".toList) := by decide
  simp only [HandleRequest, hargs, pArgDelim, Strtok_some, h1, hne, if_false, if_true]
  by_cases hb : ctx.beginByteResponse = Result.Success
  · simp only [hb, if_true]
    cases rest with
    | nil =>
      rw [Strtok_of_tokens_nil s1 h2]
      simp only [contextLength, List.length_nil]
      rw [echoLoop_eq _ [] _ (by simp), tokens_nil]
      by_cases hp : ctx.postData.length = 0 <;> simp [argCalls, postCalls, hp]
    | cons a as =>
      obtain ⟨s2, h3, h4, -⟩ := Strtok_of_tokens_cons s1 a as h2
      rw [h3]
      simp only [contextLength]
      rw [echoLoop_eq _ s2 _ (by omega), h4]
      by_cases hp : ctx.postData.length = 0 <;> simp [argCalls, postCalls, hp]
  · simp [hb]

/-- Any other command in closed form. -/
theorem HandleRequest_other (info : ServiceInfo) (ctx : RequestContext) (s cmd : List Char)
    (rest : List (List Char)) (hargs : ctx.requestArguments = some s)
    (htok : tokens s = cmd :: rest) (hs : cmd ≠ "services".toList)
    (he : cmd ≠ "diag-echo".toList) :
    HandleRequest info ctx = (Result.Unavailable, [Call.NotImplemented]) := by
  obtain ⟨s1, h1, -, -⟩ := Strtok_of_tokens_cons s cmd rest htok
  simp only [HandleRequest, hargs, pArgDelim, Strtok_some, h1, if_neg hs, if_neg he]

/-- The limit query in closed form, when there is a command token. -/
theorem QueryPostSizeLimit_token (s cmd : List Char) (rest : List (List Char))
    (htok : tokens s = cmd :: rest) :
    QueryPostSizeLimit (some s) =
      some (if cmd = "diag-echo".toList then 10240 else 0) := by
  obtain ⟨s1, h1, -, -⟩ := Strtok_of_tokens_cons s cmd rest htok
  simp only [QueryPostSizeLimit, Strtok_some, h1, kPostSizeLimit]
  split <;> rfl

/-! ## Helper lemmas: tokens and written bytes -/

/-- No piece of a split contains the separator. -/
theorem splitOn_space_mem (s : List Char) : ∀ t ∈ s.splitOn ' ', ' ' ∉ t := by
  induction s with
  | nil => intro t ht; simp [List.splitOn, List.splitOnP_nil] at ht; simp [ht]
  | cons c s ih =>
    intro t ht
    unfold List.splitOn at ih ht
    rw [List.splitOnP_cons] at ht
    by_cases h : (c == ' ') = true
    · simp only [h, if_true, List.mem_cons] at ht
      rcases ht with ht | ht
      · simp [ht]
      · exact ih t ht
    · simp only [h] at ht
      cases hsp : List.splitOnP (fun x => x == ' ') s with
      | nil => exact absurd hsp (List.splitOnP_ne_nil _ _)
      | cons hd tl =>
        rw [hsp] at ih ht
        simp only [Bool.false_eq_true, if_false, List.modifyHead_cons, List.mem_cons] at ht
        rcases ht with ht | ht
        · subst ht
          have h1 := ih hd (List.mem_cons_self _ _)
          have hc : c ≠ ' ' := by simpa using h
          simp [h1, hc.symm]
        · exact ih t (List.mem_cons_of_mem _ ht)

/-- Every token is non-empty and contains no space. -/
theorem tokens_mem (s : List Char) : ∀ t ∈ tokens s, t ≠ [] ∧ ' ' ∉ t := by
  intro t ht
  unfold tokens at ht
  rw [List.mem_filter] at ht
  refine ⟨?_, splitOn_space_mem s t ht.1⟩
  intro h
  simp [h] at ht

/-- A string made only of spaces has no token. -/
theorem tokens_of_all_space (s : List Char) (h : ∀ c ∈ s, c = ' ') : tokens s = [] := by
  have hd : s.dropWhile (fun c => c == ' ') = [] := by
    rw [List.dropWhile_eq_nil_iff]
    intro c hc
    simp [h c hc]
  rw [← tokens_dropWhile, hd, tokens_nil]

theorem bytesWritten_append (a b : List Call) :
    bytesWritten (a ++ b) = bytesWritten a ++ bytesWritten b := by
  induction a with
  | nil => rfl
  | cons c a ih => cases c <;> simp [bytesWritten, ih]

/-- Joining with single spaces: the first piece, then a space before each later piece. -/
theorem intercalate_space_cons (a : List Char) (as : List (List Char)) :
    [' '].intercalate (a :: as) = a ++ as.flatMap (fun t => ' ' :: t) := by
  induction as generalizing a with
  | nil => simp [List.intercalate]
  | cons b as ih =>
    have h := ih b
    simp only [List.intercalate, List.intersperse, List.flatten] at h ⊢
    simp [h]

/-- The bytes of the argument writes are the arguments joined by single spaces. -/
theorem bytesWritten_argCalls (rest : List (List Char)) :
    bytesWritten (argCalls rest) = [' '].intercalate rest := by
  cases rest with
  | nil => rfl
  | cons a as =>
    rw [intercalate_space_cons]
    simp only [argCalls, bytesWritten]
    congr 1
    induction as with
    | nil => rfl
    | cons b as ih =>
      rw [List.flatMap_cons, List.flatMap_cons, bytesWritten_append, ih]
      simp [bytesWritten]

/-! ## Helper lemmas: which calls occur where -/

/-- The per-service writer calls neither begin a response nor end the writer. -/
theorem serviceCalls_flatMap_mem (l : List IService) :
    ∀ c ∈ l.flatMap serviceCalls, c.isBegin = false ∧ c ≠ Call.End := by
  intro c hc
  simp only [List.mem_flatMap, serviceCalls] at hc
  obtain ⟨a, -, ha⟩ := hc
  simp only [List.mem_cons, List.mem_singleton, List.not_mem_nil, or_false] at ha
  rcases ha with h | h | h | h <;> subst h <;> simp [Call.isBegin]

/-- The argument writes neither begin a response nor end the writer. -/
theorem argCalls_mem (rest : List (List Char)) :
    ∀ c ∈ argCalls rest, c.isBegin = false ∧ c ≠ Call.End := by
  intro c hc
  cases rest with
  | nil => simp [argCalls] at hc
  | cons a as =>
    simp only [argCalls, List.mem_cons, List.mem_flatMap, List.mem_singleton,
      List.not_mem_nil, or_false] at hc
    rcases hc with h | ⟨t, -, h | h⟩ <;> subst h <;> simp [Call.isBegin]

/-- The POST body writes neither begin a response nor end the writer. -/
theorem postCalls_mem (e : Bool) (postData : List Char) :
    ∀ c ∈ postCalls e postData, c.isBegin = false ∧ c ≠ Call.End := by
  intro c hc
  unfold postCalls at hc
  split at hc
  · cases e <;> simp at hc
    · subst hc; simp [Call.isBegin]
    · rcases hc with h | h <;> subst h <;> simp [Call.isBegin]
  · simp at hc

/-- A list without a response-beginning call counts none. -/
theorem countP_isBegin_zero (l : List Call) (h : ∀ c ∈ l, c.isBegin = false ∧ c ≠ Call.End) :
    l.countP Call.isBegin = 0 := by
  rw [List.countP_eq_zero]
  intro c hc
  simp [(h c hc).1]

/-- A list without `End` counts none. -/
theorem count_End_zero (l : List Call) (h : ∀ c ∈ l, c.isBegin = false ∧ c ≠ Call.End) :
    l.count Call.End = 0 := by
  rw [List.count_eq_zero]
  intro hc
  exact (h _ hc).2 rfl

/-! ## The `diag-echo` command -/

/-- C1: a `diag-echo` request with an empty POST body, when `BeginByteResponse` succeeds, writes
exactly the tokens after the command joined by single spaces and then one NUL byte. Every such
token is non-empty and free of spaces, so the bytes have no leading, trailing or doubled space
whatever runs of spaces the argument string has; with no token the response is the single
byte 0. -/
theorem diag_echo_bytes_without_post (info : ServiceInfo) (ctx : RequestContext) (s : List Char)
    (rest : List (List Char)) (hargs : ctx.requestArguments = some s)
    (htok : tokens s = "diag-echo".toList :: rest) (hpost : ctx.postData.length = 0)
    (hbegin : ctx.beginByteResponse = Result.Success) :
    bytesWritten (HandleRequest info ctx).2 = [' '].intercalate rest ++ ['\x00'] ∧
      (∀ t ∈ rest, t ≠ [] ∧ ' ' ∉ t) ∧
      (rest = [] → bytesWritten (HandleRequest info ctx).2 = ['\x00']) := by
  have hbytes : bytesWritten (HandleRequest info ctx).2 = [' '].intercalate rest ++ ['\x00'] := by
    rw [HandleRequest_diag_echo info ctx s rest hargs htok, if_pos hbegin]
    simp [bytesWritten_append, bytesWritten_argCalls, bytesWritten, postCalls, hpost]
  refine ⟨hbytes, ?_, ?_⟩
  · intro t ht
    exact tokens_mem s t (by rw [htok]; exact List.mem_cons_of_mem _ ht)
  · intro hr
    rw [hbytes, hr]
    rfl

/-- Witness for C1: the arguments `alpha` and `beta`, sent with surplus spaces, come back as
`alpha beta` and a NUL byte. -/
theorem diag_echo_bytes_without_post_witness :
    tokens "  diag-echo   alpha  beta ".toList =
        ["diag-echo".toList, "alpha".toList, "beta".toList] ∧
      bytesWritten (HandleRequest ⟨Result.Success, []⟩
        ⟨some "  diag-echo   alpha  beta ".toList, [], Result.Success, Result.Success,
          Result.Success⟩).2 = "alpha beta\x00".toList :=
  ⟨by decide,
    (diag_echo_bytes_without_post ⟨Result.Success, []⟩
      ⟨some "  diag-echo   alpha  beta ".toList, [], Result.Success, Result.Success,
        Result.Success⟩
      "  diag-echo   alpha  beta ".toList ["alpha".toList, "beta".toList]
      rfl (by decide) rfl rfl).1⟩

/-- C2: a `diag-echo` request with a non-empty POST body, when `BeginByteResponse` succeeds,
writes the arguments joined by single spaces, a newline if and only if there was an argument,
the whole POST body as it is, and one final NUL byte. -/
theorem diag_echo_bytes_with_post (info : ServiceInfo) (ctx : RequestContext) (s : List Char)
    (rest : List (List Char)) (hargs : ctx.requestArguments = some s)
    (htok : tokens s = "diag-echo".toList :: rest) (hpost : ctx.postData.length ≠ 0)
    (hbegin : ctx.beginByteResponse = Result.Success) :
    bytesWritten (HandleRequest info ctx).2 =
      [' '].intercalate rest ++ (if rest = [] then [] else ['\n']) ++ ctx.postData ++
        ['\x00'] := by
  rw [HandleRequest_diag_echo info ctx s rest hargs htok, if_pos hbegin]
  cases rest with
  | nil => simp [bytesWritten_append, bytesWritten, postCalls, hpost, argCalls, List.intercalate]
  | cons a as =>
    simp only [bytesWritten_append, bytesWritten_argCalls]
    simp [bytesWritten, postCalls, hpost]

/-- Witness for C2: no argument and body `XYZ` give `XYZ` and a NUL byte; argument `a` and body
`B` give `a`, a newline, `B` and a NUL byte; a NUL byte inside the body is passed through. -/
theorem diag_echo_bytes_with_post_witness :
    bytesWritten (HandleRequest ⟨Result.Success, []⟩
        ⟨some "diag-echo".toList, "XYZ".toList, Result.Success, Result.Success,
          Result.Success⟩).2 = "XYZ\x00".toList ∧
      bytesWritten (HandleRequest ⟨Result.Success, []⟩
        ⟨some "diag-echo a".toList, "B".toList, Result.Success, Result.Success,
          Result.Success⟩).2 = "a\nB\x00".toList ∧
      bytesWritten (HandleRequest ⟨Result.Success, []⟩
        ⟨some "diag-echo a".toList, "B\x00C".toList, Result.Success, Result.Success,
          Result.Success⟩).2 = "a\nB\x00C\x00".toList :=
  ⟨diag_echo_bytes_with_post ⟨Result.Success, []⟩
      ⟨some "diag-echo".toList, "XYZ".toList, Result.Success, Result.Success, Result.Success⟩
      "diag-echo".toList [] rfl (by decide) (by decide) rfl,
    diag_echo_bytes_with_post ⟨Result.Success, []⟩
      ⟨some "diag-echo a".toList, "B".toList, Result.Success, Result.Success, Result.Success⟩
      "diag-echo a".toList ["a".toList] rfl (by decide) (by decide) rfl,
    diag_echo_bytes_with_post ⟨Result.Success, []⟩
      ⟨some "diag-echo a".toList, "B\x00C".toList, Result.Success, Result.Success,
        Result.Success⟩
      "diag-echo a".toList ["a".toList] rfl (by decide) (by decide) rfl⟩

/-! ## The POST size limit -/

/-- C3: for an argument string that has a first token, `QueryPostSizeLimit` returns 10240 when
that token is exactly `diag-echo`, whatever follows it, and 0 for every other first token. -/
theorem post_size_limit_of_command (s cmd : List Char) (rest : List (List Char))
    (htok : tokens s = cmd :: rest) :
    QueryPostSizeLimit (some s) = some (if cmd = "diag-echo".toList then 10240 else 0) ∧
      kPostSizeLimit = 10240 := by
  exact ⟨QueryPostSizeLimit_token s cmd rest htok, rfl⟩

/-- Witness for C3: `diag-echo extra args` is granted 10240 bytes; `unknown-cmd`, `services`,
`diag-echoX` and `Diag-Echo` are granted none. -/
theorem post_size_limit_of_command_witness :
    QueryPostSizeLimit (some "diag-echo extra args".toList) = some 10240 ∧
      QueryPostSizeLimit (some "unknown-cmd".toList) = some 0 ∧
      QueryPostSizeLimit (some "services".toList) = some 0 ∧
      QueryPostSizeLimit (some "diag-echoX".toList) = some 0 ∧
      QueryPostSizeLimit (some "Diag-Echo".toList) = some 0 :=
  ⟨(post_size_limit_of_command "diag-echo extra args".toList "diag-echo".toList
      ["extra".toList, "args".toList] (by decide)).1,
    (post_size_limit_of_command "unknown-cmd".toList "unknown-cmd".toList [] (by decide)).1,
    (post_size_limit_of_command "services".toList "services".toList [] (by decide)).1,
    (post_size_limit_of_command "diag-echoX".toList "diag-echoX".toList [] (by decide)).1,
    (post_size_limit_of_command "Diag-Echo".toList "Diag-Echo".toList [] (by decide)).1⟩

/-- C4: on the empty string and on a string of spaces `Strtok` yields no command token and
`QueryPostSizeLimit` hands that null token to `strcmp`: the outcome is undefined behaviour, not
the value 0, while `HandleRequest` on the same strings checks for the null token and returns
`Unavailable`. -/
theorem post_size_limit_without_command :
    Strtok (some "".toList) [' '] none = (none, some []) ∧
      QueryPostSizeLimit (some "".toList) = none ∧
      QueryPostSizeLimit (some "   ".toList) = none ∧
      HandleRequest ⟨Result.Success, []⟩
        ⟨some "".toList, [], Result.Success, Result.Success, Result.Success⟩ =
          (Result.Unavailable, []) := by
  decide

/-- C5: for an argument string with a command token the limit query and the handler agree:
the limit is non-zero exactly when the handler enters the `diag-echo` branch (it calls
`BeginByteResponse`, which no other branch does), the POST body is read only then, and every
other command is granted 0 bytes. -/
theorem post_admission_agrees_with_handling (info : ServiceInfo) (ctx : RequestContext)
    (s cmd : List Char) (rest : List (List Char)) (hargs : ctx.requestArguments = some s)
    (htok : tokens s = cmd :: rest) :
    ∃ n, QueryPostSizeLimit (some s) = some n ∧
      (n ≠ 0 ↔ cmd = "diag-echo".toList) ∧
      (n ≠ 0 ↔ Call.BeginByteResponse ∈ (HandleRequest info ctx).2) ∧
      (Call.GetPostData ∈ (HandleRequest info ctx).2 → n ≠ 0) ∧
      (cmd ≠ "diag-echo".toList → n = 0) := by
  refine ⟨if cmd = "diag-echo".toList then 10240 else 0,
    QueryPostSizeLimit_token s cmd rest htok, ?_⟩
  by_cases he : cmd = "diag-echo".toList
  · subst he
    rw [HandleRequest_diag_echo info ctx s rest hargs htok]
    by_cases hb : ctx.beginByteResponse = Result.Success <;> simp [hb]
  · by_cases hs : cmd = "services".toList
    · subst hs
      rw [HandleRequest_services info ctx s rest hargs htok]
      have hmem : Call.BeginByteResponse ∉ info.registeredServices.flatMap serviceCalls := by
        simp [List.mem_flatMap, serviceCalls]
      have hmem2 : Call.GetPostData ∉ info.registeredServices.flatMap serviceCalls := by
        simp [List.mem_flatMap, serviceCalls]
      by_cases hq : info.queryResult = Result.Success <;>
        by_cases hb : ctx.beginJsonResponse = Result.Success <;>
        simp [hq, hb, he, hmem, hmem2]
    · rw [HandleRequest_other info ctx s cmd rest hargs htok hs he]
      simpa using he

/-- Witness for C5: `diag-echo x` is granted a POST body and handled by the echo branch;
`services` is granted none. -/
theorem post_admission_agrees_with_handling_witness :
    (∃ n, QueryPostSizeLimit (some "diag-echo x".toList) = some n ∧
      (n ≠ 0 ↔ "diag-echo".toList = "diag-echo".toList) ∧
      (n ≠ 0 ↔ Call.BeginByteResponse ∈ (HandleRequest ⟨Result.Success, []⟩
        ⟨some "diag-echo x".toList, "B".toList, Result.Success, Result.Success,
          Result.Success⟩).2) ∧
      (Call.GetPostData ∈ (HandleRequest ⟨Result.Success, []⟩
        ⟨some "diag-echo x".toList, "B".toList, Result.Success, Result.Success,
          Result.Success⟩).2 → n ≠ 0) ∧
      ("diag-echo".toList ≠ "diag-echo".toList → n = 0)) :=
  post_admission_agrees_with_handling ⟨Result.Success, []⟩
    ⟨some "diag-echo x".toList, "B".toList, Result.Success, Result.Success, Result.Success⟩
    "diag-echo x".toList "diag-echo".toList ["x".toList] rfl (by decide)

/-! ## Absent and unknown commands -/

/-- C6: when the argument string is absent, empty or made only of spaces, `HandleRequest`
returns `Unavailable` and makes no call at all: no response is begun, the registry is not
queried and nothing is written. -/
theorem no_command_is_unavailable (info : ServiceInfo) (ctx : RequestContext)
    (h : ctx.requestArguments = none ∨
      ∃ s, ctx.requestArguments = some s ∧ ∀ c ∈ s, c = ' ') :
    HandleRequest info ctx = (Result.Unavailable, []) := by
  rcases h with h | ⟨s, hs, hall⟩
  · exact HandleRequest_null info ctx h
  · exact HandleRequest_no_token info ctx s hs (tokens_of_all_space s hall)

/-- Witness for C6: a null argument string and a string of two spaces. -/
theorem no_command_is_unavailable_witness :
    HandleRequest ⟨Result.Success, [⟨"x", 1⟩]⟩
        ⟨none, "B".toList, Result.Success, Result.Success, Result.Success⟩ =
          (Result.Unavailable, []) ∧
      HandleRequest ⟨Result.Success, [⟨"x", 1⟩]⟩
        ⟨some "  ".toList, "B".toList, Result.Success, Result.Success, Result.Success⟩ =
          (Result.Unavailable, []) :=
  ⟨no_command_is_unavailable _ _ (Or.inl rfl),
    no_command_is_unavailable _ _ (Or.inr ⟨"  ".toList, rfl, by decide⟩)⟩

/-- Counterexample for C7: the request `unknown-cmd x` gets the result `Unavailable`, the very
result of a request without a command, so the two results are not distinct. -/
theorem unknown_command_result_is_unavailable :
    (HandleRequest ⟨Result.Success, []⟩
        ⟨some "unknown-cmd x".toList, "B".toList, Result.Success, Result.Success,
          Result.Success⟩).1 = Result.Unavailable ∧
      ¬ ((HandleRequest ⟨Result.Success, []⟩
        ⟨some "unknown-cmd x".toList, "B".toList, Result.Success, Result.Success,
          Result.Success⟩).1 ≠
        (HandleRequest ⟨Result.Success, []⟩
          ⟨some "".toList, "B".toList, Result.Success, Result.Success,
            Result.Success⟩).1) := by
  decide

/-- C7, amended: for a first token that is neither `services` nor `diag-echo`, whatever the
trailing arguments and the POST body, `HandleRequest` begins no response and queries nothing;
its only call is the `DD_NOT_IMPLEMENTED` diagnostic, and the result it returns is
`Unavailable`, the same result as for a request without a command. -/
theorem unknown_command_not_implemented (info : ServiceInfo) (ctx : RequestContext)
    (s cmd : List Char) (rest : List (List Char)) (hargs : ctx.requestArguments = some s)
    (htok : tokens s = cmd :: rest) (hs : cmd ≠ "services".toList)
    (he : cmd ≠ "diag-echo".toList) :
    HandleRequest info ctx = (Result.Unavailable, [Call.NotImplemented]) ∧
      (HandleRequest info ctx).1 =
        (HandleRequest info { ctx with requestArguments := none }).1 := by
  have h := HandleRequest_other info ctx s cmd rest hargs htok hs he
  refine ⟨h, ?_⟩
  rw [h, HandleRequest_null info { ctx with requestArguments := none } rfl]

/-- Witness for C7, amended: the request `unknown-cmd x` with a POST body. -/
theorem unknown_command_not_implemented_witness :
    HandleRequest ⟨Result.Success, []⟩
        ⟨some "unknown-cmd x".toList, "B".toList, Result.Success, Result.Success,
          Result.Success⟩ = (Result.Unavailable, [Call.NotImplemented]) :=
  (unknown_command_not_implemented ⟨Result.Success, []⟩
    ⟨some "unknown-cmd x".toList, "B".toList, Result.Success, Result.Success, Result.Success⟩
    "unknown-cmd x".toList "unknown-cmd".toList ["x".toList] rfl (by decide) (by decide)
    (by decide)).1

/-! ## The `services` command -/

/-- C8: when the registry query and `BeginJsonResponse` succeed, the `services` command makes
exactly the writer calls `BeginMap`, `KeyAndBeginList("Services")`, then for each registered
service in order `BeginMap`, `KeyAndValue("Name", name)`, `KeyAndValue("Version", version)`,
`EndMap`, then `EndList`, `EndMap`, `End`, and returns the result of `End`; with no registered
service the list is opened and closed at once and the result is still that of `End`. -/
theorem services_document (info : ServiceInfo) (ctx : RequestContext) (s : List Char)
    (rest : List (List Char)) (hargs : ctx.requestArguments = some s)
    (htok : tokens s = "services".toList :: rest) (hq : info.queryResult = Result.Success)
    (hb : ctx.beginJsonResponse = Result.Success) :
    HandleRequest info ctx =
        (ctx.writerEnd,
          [Call.QueryRegisteredServices, Call.BeginJsonResponse] ++
            ([Call.BeginMap, Call.KeyAndBeginList "Services"] ++
              info.registeredServices.flatMap (fun pService =>
                [Call.BeginMap,
                  Call.KeyAndValueStr "Name" pService.name,
                  Call.KeyAndValueNum "Version" pService.version,
                  Call.EndMap]) ++
              [Call.EndList, Call.EndMap, Call.End])) ∧
      (info.registeredServices = [] →
        HandleRequest info ctx =
          (ctx.writerEnd,
            [Call.QueryRegisteredServices, Call.BeginJsonResponse, Call.BeginMap,
              Call.KeyAndBeginList "Services", Call.EndList, Call.EndMap, Call.End])) := by
  have h := HandleRequest_services info ctx s rest hargs htok
  rw [if_pos hq, if_pos hb] at h
  have hf : info.registeredServices.flatMap serviceCalls =
      info.registeredServices.flatMap (fun pService =>
        [Call.BeginMap,
          Call.KeyAndValueStr "Name" pService.name,
          Call.KeyAndValueNum "Version" pService.version,
          Call.EndMap]) := rfl
  refine ⟨?_, ?_⟩
  · rw [h, hf]
    simp
  · intro hl
    rw [h, hl]
    rfl

/-- Witness for C8: two registered services, and none. -/
theorem services_document_witness :
    HandleRequest ⟨Result.Success, [⟨"internal", 1⟩, ⟨"settings", 5⟩]⟩
        ⟨some "services".toList, [], Result.Success, Result.Success, Result.Success⟩ =
        (Result.Success,
          [Call.QueryRegisteredServices, Call.BeginJsonResponse, Call.BeginMap,
            Call.KeyAndBeginList "Services",
            Call.BeginMap, Call.KeyAndValueStr "Name" "internal",
            Call.KeyAndValueNum "Version" 1, Call.EndMap,
            Call.BeginMap, Call.KeyAndValueStr "Name" "settings",
            Call.KeyAndValueNum "Version" 5, Call.EndMap,
            Call.EndList, Call.EndMap, Call.End]) ∧
      HandleRequest ⟨Result.Success, []⟩
        ⟨some "services".toList, [], Result.Success, Result.Success, Result.Success⟩ =
        (Result.Success,
          [Call.QueryRegisteredServices, Call.BeginJsonResponse, Call.BeginMap,
            Call.KeyAndBeginList "Services", Call.EndList, Call.EndMap, Call.End]) :=
  ⟨(services_document ⟨Result.Success, [⟨"internal", 1⟩, ⟨"settings", 5⟩]⟩
      ⟨some "services".toList, [], Result.Success, Result.Success, Result.Success⟩
      "services".toList [] rfl (by decide) rfl rfl).1,
    (services_document ⟨Result.Success, []⟩
      ⟨some "services".toList, [], Result.Success, Result.Success, Result.Success⟩
      "services".toList [] rfl (by decide) rfl rfl).2 rfl⟩

/-- Counterexample for C9: when the registry query fails with `InsufficientMemory`, the
`services` command returns `InsufficientMemory`, not `Unavailable`. -/
theorem services_query_failure_not_unavailable :
    (HandleRequest ⟨Result.InsufficientMemory, []⟩
        ⟨some "services".toList, [], Result.Success, Result.Success, Result.Success⟩).1 =
        Result.InsufficientMemory ∧
      (HandleRequest ⟨Result.InsufficientMemory, []⟩
        ⟨some "services".toList, [], Result.Success, Result.Success, Result.Success⟩).1 ≠
        Result.Unavailable := by
  decide

/-- C9, amended: when the registry query returns a result other than `Success`, the `services`
command returns that very result, and apart from the query it makes no call: no response is
begun and no writer call is made. The result is `Unavailable` when the query returned
`Unavailable`. -/
theorem services_query_failure (info : ServiceInfo) (ctx : RequestContext) (s : List Char)
    (rest : List (List Char)) (hargs : ctx.requestArguments = some s)
    (htok : tokens s = "services".toList :: rest) (hq : info.queryResult ≠ Result.Success) :
    HandleRequest info ctx = (info.queryResult, [Call.QueryRegisteredServices]) ∧
      (info.queryResult = Result.Unavailable →
        (HandleRequest info ctx).1 = Result.Unavailable) := by
  have h := HandleRequest_services info ctx s rest hargs htok
  rw [if_neg hq] at h
  refine ⟨h, ?_⟩
  intro hu
  rw [h, hu]

/-- Witness for C9, amended: a query that fails with `InsufficientMemory`. -/
theorem services_query_failure_witness :
    HandleRequest ⟨Result.InsufficientMemory, [⟨"internal", 1⟩]⟩
        ⟨some "services".toList, [], Result.Success, Result.Success, Result.Success⟩ =
      (Result.InsufficientMemory, [Call.QueryRegisteredServices]) :=
  (services_query_failure ⟨Result.InsufficientMemory, [⟨"internal", 1⟩]⟩
    ⟨some "services".toList, [], Result.Success, Result.Success, Result.Success⟩
    "services".toList [] rfl (by decide) (by decide)).1

/-! ## Response pairing -/

/-- C10: for every request `HandleRequest` makes at most one call that begins a response
(`BeginJsonResponse` or `BeginByteResponse`, never both, never twice). When that call succeeds,
`End` is called exactly once, it is the last call made, and its result is what `HandleRequest`
returns; when that call fails, no writer method is called and the failure of the begin call is
what `HandleRequest` returns. -/
theorem one_response_one_end (info : ServiceInfo) (ctx : RequestContext) :
    (HandleRequest info ctx).2.countP Call.isBegin ≤ 1 ∧
      (Call.BeginJsonResponse ∈ (HandleRequest info ctx).2 →
        (ctx.beginJsonResponse = Result.Success →
          (HandleRequest info ctx).2.count Call.End = 1 ∧
            (HandleRequest info ctx).2.getLast? = some Call.End ∧
            (HandleRequest info ctx).1 = ctx.writerEnd) ∧
        (ctx.beginJsonResponse ≠ Result.Success →
          (∀ c ∈ (HandleRequest info ctx).2, c.isWriterCall = false) ∧
            (HandleRequest info ctx).1 = ctx.beginJsonResponse)) ∧
      (Call.BeginByteResponse ∈ (HandleRequest info ctx).2 →
        (ctx.beginByteResponse = Result.Success →
          (HandleRequest info ctx).2.count Call.End = 1 ∧
            (HandleRequest info ctx).2.getLast? = some Call.End ∧
            (HandleRequest info ctx).1 = ctx.writerEnd) ∧
        (ctx.beginByteResponse ≠ Result.Success →
          (∀ c ∈ (HandleRequest info ctx).2, c.isWriterCall = false) ∧
            (HandleRequest info ctx).1 = ctx.beginByteResponse)) := by
  cases hargs : ctx.requestArguments with
  | none =>
    rw [HandleRequest_null info ctx hargs]
    simp
  | some s =>
    cases htok : tokens s with
    | nil =>
      rw [HandleRequest_no_token info ctx s hargs htok]
      simp
    | cons cmd rest =>
      by_cases hs : cmd = "services".toList
      · subst hs
        rw [HandleRequest_services info ctx s rest hargs htok]
        have hm := serviceCalls_flatMap_mem info.registeredServices
        have h0 := countP_isBegin_zero _ hm
        have h1 := count_End_zero _ hm
        have hbyte : Call.BeginByteResponse ∉ info.registeredServices.flatMap serviceCalls := by
          intro hc
          have := (hm _ hc).1
          simp [Call.isBegin] at this
        by_cases hq : info.queryResult = Result.Success
        · by_cases hb : ctx.beginJsonResponse = Result.Success
          · rw [if_pos hq, if_pos hb]
            refine ⟨?_, ?_, ?_⟩
            · simp [List.countP_append, List.countP_cons, h0, Call.isBegin]
            · intro _
              refine ⟨fun _ => ⟨?_, ?_, rfl⟩, fun h => absurd hb h⟩
              · simp [List.count_append, List.count_cons, h1]
              · rw [List.getLast?_append]
                rfl
            · intro hc
              simp [hbyte] at hc
          · simp [hq, hb, List.countP_cons, Call.isBegin, Call.isWriterCall]
        · simp [hq, List.countP_cons, Call.isBegin]
      · by_cases he : cmd = "diag-echo".toList
        · subst he
          rw [HandleRequest_diag_echo info ctx s rest hargs htok]
          have hm1 := argCalls_mem rest
          have hm2 := postCalls_mem (!rest.isEmpty) ctx.postData
          have h0 := countP_isBegin_zero _ hm1
          have h1 := count_End_zero _ hm1
          have h2 := countP_isBegin_zero _ hm2
          have h3 := count_End_zero _ hm2
          have hj1 : Call.BeginJsonResponse ∉ argCalls rest := by
            intro hc
            have := (hm1 _ hc).1
            simp [Call.isBegin] at this
          have hj2 : Call.BeginJsonResponse ∉ postCalls (!rest.isEmpty) ctx.postData := by
            intro hc
            have := (hm2 _ hc).1
            simp [Call.isBegin] at this
          by_cases hb : ctx.beginByteResponse = Result.Success
          · rw [if_pos hb]
            refine ⟨?_, ?_, ?_⟩
            · simp [List.countP_append, List.countP_cons, h0, h2, Call.isBegin]
            · intro hc
              simp [hj1, hj2] at hc
            · intro _
              refine ⟨fun _ => ⟨?_, ?_, rfl⟩, fun h => absurd hb h⟩
              · simp [List.count_append, List.count_cons, h1, h3]
              · rw [List.getLast?_append]
                rfl
          · simp [hb, List.countP_cons, Call.isBegin, Call.isWriterCall]
        · rw [HandleRequest_other info ctx s cmd rest hargs htok hs he]
          simp [List.countP_cons, Call.isBegin]

/-- Witness for C10: a `diag-echo` request whose `BeginByteResponse` succeeds ends its writer
once, last, and returns the result of `End`; one whose `BeginByteResponse` is rejected makes no
writer call and returns the rejection. -/
theorem one_response_one_end_witness :
    ((HandleRequest ⟨Result.Success, []⟩
        ⟨some "diag-echo a".toList, "B".toList, Result.Success, Result.Success,
          Result.Error⟩).2.count Call.End = 1 ∧
      (HandleRequest ⟨Result.Success, []⟩
        ⟨some "diag-echo a".toList, "B".toList, Result.Success, Result.Success,
          Result.Error⟩).2.getLast? = some Call.End ∧
      (HandleRequest ⟨Result.Success, []⟩
        ⟨some "diag-echo a".toList, "B".toList, Result.Success, Result.Success,
          Result.Error⟩).1 = Result.Error) ∧
    ((∀ c ∈ (HandleRequest ⟨Result.Success, []⟩
        ⟨some "diag-echo a".toList, "B".toList, Result.Success, Result.Rejected,
          Result.Success⟩).2, c.isWriterCall = false) ∧
      (HandleRequest ⟨Result.Success, []⟩
        ⟨some "diag-echo a".toList, "B".toList, Result.Success, Result.Rejected,
          Result.Success⟩).1 = Result.Rejected) :=
  ⟨((one_response_one_end ⟨Result.Success, []⟩
      ⟨some "diag-echo a".toList, "B".toList, Result.Success, Result.Success,
        Result.Error⟩).2.2 (by decide)).1 rfl,
    ((one_response_one_end ⟨Result.Success, []⟩
      ⟨some "diag-echo a".toList, "B".toList, Result.Success, Result.Rejected,
        Result.Success⟩).2.2 (by decide)).2 (by decide)⟩

/-! ## Nesting of the `services` document -/

/-- Running the nesting discipline over two logs in a row. -/
theorem nestRun_append (m : Nat) (stack : List Frame) (a b : List Call) :
    nestRun m stack (a ++ b) = (nestRun m stack a).bind (fun stack1 => nestRun m stack1 b) := by
  induction a generalizing stack with
  | nil => rfl
  | cons c a ih =>
    simp only [List.cons_append, nestRun]
    cases nestStep stack c with
    | none => rfl
    | some stack1 =>
      by_cases hd : stack1.length ≤ m
      · simp only [hd, if_true]
        exact ih stack1
      · simp only [hd, if_false, Option.none_bind]

/-- Inside the list of the document, the calls for the services open and close one map each
and leave the list as it was. -/
theorem nestRun_serviceCalls (l : List IService) :
    nestRun 3 [Frame.list, Frame.map] (l.flatMap serviceCalls) =
      some [Frame.list, Frame.map] := by
  induction l with
  | nil => rfl
  | cons a l ih =>
    rw [List.flatMap_cons, nestRun_append]
    have h1 : nestRun 3 [Frame.list, Frame.map] (serviceCalls a) =
        some [Frame.list, Frame.map] := by
      simp [serviceCalls, nestRun, nestStep]
    rw [h1, Option.some_bind, ih]

/-- C11: for every number of registered services, the writer calls of the `services` command
keep the nesting discipline: every `EndMap` and `EndList` closes the innermost open item of its
own kind, nothing is closed that is not open, the depth never exceeds 3, every `KeyAndValue`
has a map as its innermost open item, and nothing is open when `End` is called. -/
theorem services_well_nested (info : ServiceInfo) (ctx : RequestContext) (s : List Char)
    (rest : List (List Char)) (hargs : ctx.requestArguments = some s)
    (htok : tokens s = "services".toList :: rest) (hq : info.queryResult = Result.Success)
    (hb : ctx.beginJsonResponse = Result.Success) :
    nestRun 3 [] (HandleRequest info ctx).2 = some [] ∧
      (HandleRequest info ctx).2.getLast? = some Call.End := by
  have h := HandleRequest_services info ctx s rest hargs htok
  rw [if_pos hq, if_pos hb] at h
  rw [h]
  refine ⟨?_, ?_⟩
  · rw [nestRun_append, nestRun_append]
    have h1 : nestRun 3 [] [Call.QueryRegisteredServices, Call.BeginJsonResponse, Call.BeginMap,
        Call.KeyAndBeginList "Services"] = some [Frame.list, Frame.map] := by
      simp [nestRun, nestStep]
    rw [h1, Option.some_bind, nestRun_serviceCalls, Option.some_bind]
    simp [nestRun, nestStep]
  · rw [List.getLast?_append]
    rfl

/-- Witness for C11: two registered services reach depth 3 and no more; with depth 2 as the
bound the same log is refused, so the bound is attained. -/
theorem services_well_nested_witness :
    nestRun 3 [] (HandleRequest ⟨Result.Success, [⟨"internal", 1⟩, ⟨"settings", 5⟩]⟩
        ⟨some "services".toList, [], Result.Success, Result.Success, Result.Success⟩).2 =
        some [] ∧
      nestRun 2 [] (HandleRequest ⟨Result.Success, [⟨"internal", 1⟩, ⟨"settings", 5⟩]⟩
        ⟨some "services".toList, [], Result.Success, Result.Success, Result.Success⟩).2 =
        none :=
  ⟨(services_well_nested ⟨Result.Success, [⟨"internal", 1⟩, ⟨"settings", 5⟩]⟩
      ⟨some "services".toList, [], Result.Success, Result.Success, Result.Success⟩
      "services".toList [] rfl (by decide) rfl rfl).1,
    by decide⟩

/-! ## Echoing an echo -/

/-- A space-free, non-empty string followed by a space is the first token of what it
starts. -/
theorem tokens_append_space (t x : List Char) (hne : t ≠ []) (hsp : ' ' ∉ t) :
    tokens (t ++ ' ' :: x) = t :: tokens x := by
  unfold tokens List.splitOn
  have hp : ∀ c ∈ t, ¬ ((c == ' ') = true) := by
    intro c hc h
    have hc2 : c = ' ' := by simpa using h
    exact hsp (hc2 ▸ hc)
  rw [List.splitOnP_first (fun c => c == ' ') t hp ' ' (by simp) x]
  have hemp : t.isEmpty = false := by
    cases t with
    | nil => exact absurd rfl hne
    | cons c cs => rfl
  simp [List.filter_cons, hemp]

/-- A space-free, non-empty string is its own single token. -/
theorem tokens_single (t : List Char) (hne : t ≠ []) (hsp : ' ' ∉ t) : tokens t = [t] := by
  unfold tokens List.splitOn
  have hp : ∀ c ∈ t, ¬ ((c == ' ') = true) := by
    intro c hc h
    have hc2 : c = ' ' := by simpa using h
    exact hsp (hc2 ▸ hc)
  rw [List.splitOnP_eq_single (fun c => c == ' ') t hp]
  have hemp : t.isEmpty = false := by
    cases t with
    | nil => exact absurd rfl hne
    | cons c cs => rfl
  simp [List.filter_cons, hemp]

/-- Tokens joined by single spaces split back into the same tokens. -/
theorem tokens_intercalate (rest : List (List Char)) (h : ∀ t ∈ rest, t ≠ [] ∧ ' ' ∉ t) :
    tokens ([' '].intercalate rest) = rest := by
  induction rest with
  | nil => rfl
  | cons a as ih =>
    have ha := h a (List.mem_cons_self _ _)
    have has : ∀ t ∈ as, t ≠ [] ∧ ' ' ∉ t := fun t ht => h t (List.mem_cons_of_mem _ ht)
    cases as with
    | nil =>
      rw [intercalate_space_cons]
      simpa using tokens_single a ha.1 ha.2
    | cons b bs =>
      have hstep : [' '].intercalate (a :: b :: bs) = a ++ ' ' :: [' '].intercalate (b :: bs) := by
        rw [intercalate_space_cons, intercalate_space_cons]
        simp
      rw [hstep, tokens_append_space a _ ha.1 ha.2, ih has]

/-- The bytes of a `diag-echo` response without a POST body. -/
theorem bytesWritten_diag_echo (info : ServiceInfo) (ctx : RequestContext) (s : List Char)
    (rest : List (List Char)) (hargs : ctx.requestArguments = some s)
    (htok : tokens s = "diag-echo".toList :: rest) (hpost : ctx.postData.length = 0)
    (hbegin : ctx.beginByteResponse = Result.Success) :
    bytesWritten (HandleRequest info ctx).2 = [' '].intercalate rest ++ ['\x00'] := by
  rw [HandleRequest_diag_echo info ctx s rest hargs htok, if_pos hbegin]
  simp [bytesWritten_append, bytesWritten_argCalls, bytesWritten, postCalls, hpost]

/-- C29: for a `diag-echo` request without a POST body whose `BeginByteResponse` succeeds,
the echoed bytes without their final NUL split on spaces into the original arguments, and a
new `diag-echo` request that carries those bytes as its arguments gets exactly the same
response bytes. -/
theorem diag_echo_idempotent (info : ServiceInfo) (ctx : RequestContext) (s : List Char)
    (rest : List (List Char)) (hargs : ctx.requestArguments = some s)
    (htok : tokens s = "diag-echo".toList :: rest) (hpost : ctx.postData.length = 0)
    (hbegin : ctx.beginByteResponse = Result.Success) :
    tokens (bytesWritten (HandleRequest info ctx).2).dropLast = rest ∧
      bytesWritten (HandleRequest info
        ⟨some ("diag-echo ".toList ++ (bytesWritten (HandleRequest info ctx).2).dropLast),
          ctx.postData, ctx.beginJsonResponse, ctx.beginByteResponse, ctx.writerEnd⟩).2 =
        bytesWritten (HandleRequest info ctx).2 := by
  have hb := bytesWritten_diag_echo info ctx s rest hargs htok hpost hbegin
  have hrest : ∀ t ∈ rest, t ≠ [] ∧ ' ' ∉ t := fun t ht =>
    tokens_mem s t (by rw [htok]; exact List.mem_cons_of_mem _ ht)
  have hdrop : (bytesWritten (HandleRequest info ctx).2).dropLast = [' '].intercalate rest := by
    rw [hb, List.dropLast_concat]
  have htok1 : tokens ([' '].intercalate rest) = rest := tokens_intercalate rest hrest
  have htok2 : tokens ("diag-echo ".toList ++ [' '].intercalate rest) =
      "diag-echo".toList :: rest := by
    have h := tokens_append_space "diag-echo".toList ([' '].intercalate rest) (by decide)
      (by decide)
    rw [htok1] at h
    exact h
  refine ⟨by rw [hdrop, htok1], ?_⟩
  rw [hdrop, hb]
  exact bytesWritten_diag_echo info _ _ rest rfl htok2 hpost hbegin

/-- Witness for C29: the arguments `alpha` and `beta`, sent with surplus spaces, are echoed as
`alpha beta`; sending `diag-echo alpha beta` gives the same bytes again. -/
theorem diag_echo_idempotent_witness :
    tokens (bytesWritten (HandleRequest ⟨Result.Success, []⟩
        ⟨some "  diag-echo   alpha  beta ".toList, [], Result.Success, Result.Success,
          Result.Success⟩).2).dropLast = ["alpha".toList, "beta".toList] ∧
      bytesWritten (HandleRequest ⟨Result.Success, []⟩
        ⟨some "diag-echo alpha beta".toList, [], Result.Success, Result.Success,
          Result.Success⟩).2 = "alpha beta\x00".toList :=
  ⟨(diag_echo_idempotent ⟨Result.Success, []⟩
      ⟨some "  diag-echo   alpha  beta ".toList, [], Result.Success, Result.Success,
        Result.Success⟩
      "  diag-echo   alpha  beta ".toList ["alpha".toList, "beta".toList]
      rfl (by decide) rfl rfl).1,
    by decide⟩

end DevDriver

namespace Pal

/-! ## Helper lemmas: the platform -/

/-- The result of early init is that of the settings loader and then the event provider,
whatever happens on the bus. -/
theorem EarlyInitDevDriver_result (cfg : BuildConfig) (env : Env) (p : Platform) :
    (EarlyInitDevDriver cfg env p).1 =
      if env.settingsLoaderInit = Result.Success then env.eventProviderInit
      else env.settingsLoaderInit := by
  unfold EarlyInitDevDriver
  by_cases h : env.settingsLoaderInit = Result.Success <;> simp [h]

/-- Early init enters no bootstrap step of `Init`. -/
theorem EarlyInitDevDriver_steps (cfg : BuildConfig) (env : Env) (p : Platform) :
    (EarlyInitDevDriver cfg env p).2.2.filter Call.isStep = [] := by
  unfold EarlyInitDevDriver
  by_cases h1 : env.isConnectionAvailable = true <;>
    by_cases h2 : env.newDevDriverServer = none <;>
    by_cases h3 : env.serverInit = DevDriver.Result.Success <;>
    by_cases h4 : env.findFirstClient = DevDriver.Result.Success <;>
    by_cases h5 : env.settingsLoaderInit = Result.Success <;>
    by_cases h6 : cfg.GPUOPEN_CLIENT_INTERFACE_MAJOR_VERSION <
      cfg.GPUOPEN_DRIVER_CONTROL_CLEANUP_VERSION <;>
    by_cases h7 : p.m_pDevDriverServer = none <;>
    simp [h1, h2, h3, h4, h5, h6, h7, Call.isStep, List.filter]

/-- Tearing down devices enters no bootstrap step of `Init`. -/
theorem DeviceCleanup_steps (n : Nat) :
    ((List.range n).map Call.DeviceCleanup).filter Call.isStep = [] := by
  rw [List.filter_eq_nil_iff]
  intro c hc
  simp only [List.mem_map] at hc
  obtain ⟨g, -, rfl⟩ := hc
  simp [Call.isStep]

/-- Device enumeration enters no bootstrap step of `Init` and returns the result of
`ReQueryDevices`. -/
theorem ReEnumerateDevices_steps (env : Env) (p : Platform) :
    (ReEnumerateDevices env p).2.2.filter Call.isStep = [] ∧
      (ReEnumerateDevices env p).1 = env.reQueryDevices.1 := by
  unfold ReEnumerateDevices TearDownDevices
  by_cases h : env.reQueryDevices.1 = Result.Success <;>
    simp [h, List.filter_append, DeviceCleanup_steps, Call.isStep, List.filter]

/-- Late init enters no bootstrap step of `Init`. -/
theorem LateInitDevDriver_steps (cfg : BuildConfig) (p : Platform) :
    (LateInitDevDriver cfg p).2.filter Call.isStep = [] := by
  unfold LateInitDevDriver
  rcases p with ⟨devs, srv, rgp, flag⟩
  cases devs <;> cases srv <;> cases flag <;>
    by_cases h1 : cfg.GPUOPEN_CLIENT_INTERFACE_MAJOR_VERSION ≥
      cfg.GPUOPEN_DRIVER_CONTROL_CLEANUP_VERSION <;>
    by_cases h2 : cfg.PAL_CLIENT_INTERFACE_MAJOR_VERSION < 613 <;>
    simp [h1, h2, Call.isStep, List.filter, Platform.m_deviceCount] <;>
    split <;> simp [Call.isStep, List.filter]

/-- The bootstrap steps `Init` enters, and its result, in closed form. -/
theorem Init_steps (cfg : BuildConfig) (env : Env) (p : Platform) :
    ((Init cfg env p).2.2.filter Call.isStep, (Init cfg env p).1) =
      if env.iPlatformInit = Result.Success then
        if (EarlyInitDevDriver cfg env p).1 = Result.Success then
          if env.connectToOsInterface = Result.Success then
            if env.reQueryDevices.1 = Result.Success then (initOrder, InitProperties)
            else (initOrder.take 4, env.reQueryDevices.1)
          else (initOrder.take 3, env.connectToOsInterface)
        else (initOrder.take 2, (EarlyInitDevDriver cfg env p).1)
      else (initOrder.take 1, env.iPlatformInit) := by
  unfold Init
  have hE := EarlyInitDevDriver_steps cfg env p
  by_cases h0 : cfg.PAL_ENABLE_PRINTS_ASSERTS = true <;>
    by_cases h1 : env.iPlatformInit = Result.Success <;>
    by_cases h2 : (EarlyInitDevDriver cfg env p).1 = Result.Success <;>
    by_cases h3 : env.connectToOsInterface = Result.Success <;>
    by_cases h4 : env.reQueryDevices.1 = Result.Success <;>
    simp [h0, h1, h2, h3, h4, hE, List.filter_append, (ReEnumerateDevices_steps env _).1,
      (ReEnumerateDevices_steps env _).2, LateInitDevDriver_steps, Call.isStep, List.filter,
      initOrder, InitProperties]

/-! ## Early init -/

/-- C12: when no message-bus endpoint is reachable, early init on a platform without a bus
client allocates no client, attempts no discovery and sends no device-init signal; the
platform is unchanged, so both pointers stay null; and the result is that of the settings
loader and then the event provider, which is `Success` when both succeed. -/
theorem early_init_without_bus (cfg : BuildConfig) (env : Env) (p : Platform)
    (hconn : env.isConnectionAvailable = false) (hs : p.m_pDevDriverServer = none)
    (hr : p.m_pRgpServer = none) :
    EarlyInitDevDriver cfg env p =
        (if env.settingsLoaderInit = Result.Success then env.eventProviderInit
          else env.settingsLoaderInit,
          p,
          [Call.IsConnectionAvailable, Call.SettingsLoaderInit] ++
            if env.settingsLoaderInit = Result.Success then [Call.EventProviderInit] else []) ∧
      (EarlyInitDevDriver cfg env p).2.1.m_pDevDriverServer = none ∧
      (EarlyInitDevDriver cfg env p).2.1.m_pRgpServer = none ∧
      (env.settingsLoaderInit = Result.Success → env.eventProviderInit = Result.Success →
        (EarlyInitDevDriver cfg env p).1 = Result.Success) := by
  have h : EarlyInitDevDriver cfg env p =
      (if env.settingsLoaderInit = Result.Success then env.eventProviderInit
        else env.settingsLoaderInit,
        p,
        [Call.IsConnectionAvailable, Call.SettingsLoaderInit] ++
          if env.settingsLoaderInit = Result.Success then [Call.EventProviderInit] else []) := by
    unfold EarlyInitDevDriver
    by_cases h : env.settingsLoaderInit = Result.Success <;> simp [h, hconn, hs]
  refine ⟨h, ?_, ?_, ?_⟩
  · rw [h]; exact hs
  · rw [h]; exact hr
  · intro h1 h2
    rw [h]
    simp [h1, h2]

/-- Witness for C12: with no bus reachable a new platform keeps both pointers null and early
init succeeds. -/
theorem early_init_without_bus_witness :
    EarlyInitDevDriver cfgNew envNoBus (Platform.new true) =
      (Result.Success, Platform.new true,
        [Call.IsConnectionAvailable, Call.SettingsLoaderInit, Call.EventProviderInit]) :=
  (early_init_without_bus cfgNew envNoBus (Platform.new true) rfl rfl rfl).1

/-- C13: when the bus is reachable but the client cannot be allocated or its `Initialize()`
fails, early init on a platform without a cached RGP server leaves both pointers null, deletes
the client it allocated, attempts no discovery and sends no device-init signal, and returns
what it returns with no bus at all. -/
theorem early_init_bus_failure (cfg : BuildConfig) (env : Env) (p : Platform)
    (hconn : env.isConnectionAvailable = true)
    (hfail : env.newDevDriverServer = none ∨ env.serverInit ≠ DevDriver.Result.Success)
    (hr : p.m_pRgpServer = none) :
    (EarlyInitDevDriver cfg env p).2.1.m_pDevDriverServer = none ∧
      (EarlyInitDevDriver cfg env p).2.1.m_pRgpServer = none ∧
      (env.newDevDriverServer ≠ none →
        (EarlyInitDevDriver cfg env p).2.2 =
          [Call.IsConnectionAvailable, Call.NewDevDriverServer, Call.DevDriverServerInit,
            Call.AssertAlways, Call.DeleteDevDriverServer, Call.SettingsLoaderInit] ++
            if env.settingsLoaderInit = Result.Success then [Call.EventProviderInit] else []) ∧
      Call.FindFirstClient ∉ (EarlyInitDevDriver cfg env p).2.2 ∧
      Call.StartDeviceInit ∉ (EarlyInitDevDriver cfg env p).2.2 ∧
      Call.StartEarlyDeviceInit ∉ (EarlyInitDevDriver cfg env p).2.2 ∧
      (EarlyInitDevDriver cfg env p).1 =
        (EarlyInitDevDriver cfg { env with isConnectionAvailable := false } p).1 := by
  have hres : (EarlyInitDevDriver cfg env p).1 =
      (EarlyInitDevDriver cfg { env with isConnectionAvailable := false } p).1 := by
    rw [EarlyInitDevDriver_result, EarlyInitDevDriver_result]
  refine ⟨?_, ?_, ?_, ?_, ?_, ?_, hres⟩ <;>
    (unfold EarlyInitDevDriver
     rcases hfail with hnew | hinit
     · by_cases h : env.settingsLoaderInit = Result.Success <;> simp [h, hconn, hnew, hr]
     · cases hnew : env.newDevDriverServer <;>
         by_cases h : env.settingsLoaderInit = Result.Success <;>
         simp [h, hconn, hnew, hinit, hr])

/-- Witness for C13: a client whose `Initialize()` fails is deleted and early init still
succeeds. -/
theorem early_init_bus_failure_witness :
    (EarlyInitDevDriver cfgNew envInitFails (Platform.new true)).2.1.m_pDevDriverServer = none ∧
      (EarlyInitDevDriver cfgNew envInitFails (Platform.new true)).2.1.m_pRgpServer = none ∧
      (EarlyInitDevDriver cfgNew envInitFails (Platform.new true)).1 = Result.Success :=
  ⟨(early_init_bus_failure cfgNew envInitFails (Platform.new true) rfl
      (Or.inr (by decide)) rfl).1,
    (early_init_bus_failure cfgNew envInitFails (Platform.new true) rfl
      (Or.inr (by decide)) rfl).2.1,
    (early_init_bus_failure cfgNew envInitFails (Platform.new true) rfl
      (Or.inr (by decide)) rfl).2.2.2.2.2.2⟩

/-- Counterexample for C14: the client initialises but discovery finds no tool in time; the
client is deleted, `m_pDevDriverServer` is null afterwards and the RGP server is not cached. -/
theorem early_init_no_tool_drops_client :
    envNoTool.isConnectionAvailable = true ∧
      envNoTool.newDevDriverServer = some 1 ∧
      envNoTool.serverInit = DevDriver.Result.Success ∧
      envNoTool.findFirstClient = DevDriver.Result.NotReady ∧
      (EarlyInitDevDriver cfgNew envNoTool (Platform.new true)).2.1.m_pDevDriverServer = none ∧
      (EarlyInitDevDriver cfgNew envNoTool (Platform.new true)).2.1.m_pRgpServer = none ∧
      (EarlyInitDevDriver cfgNew envNoTool (Platform.new true)).2.2 =
        [Call.IsConnectionAvailable, Call.NewDevDriverServer, Call.DevDriverServerInit,
          Call.GetMessageChannel, Call.FindFirstClient, Call.DeleteDevDriverServer,
          Call.SettingsLoaderInit, Call.EventProviderInit] := by
  decide

/-- C14, amended: when the client initialises but discovery returns anything other than
`Success`, early init does not fail because of it (its result is still that of the settings
loader and then the event provider), but the client is deleted: on a platform without a cached
RGP server both pointers are null afterwards, `GetRGPServer` is not called and no device-init
signal is sent. When discovery returns `Success` the client is kept and the RGP server is
cached. -/
theorem early_init_discovery (cfg : BuildConfig) (env : Env) (p : Platform) (a : Nat)
    (hconn : env.isConnectionAvailable = true) (hnew : env.newDevDriverServer = some a)
    (hinit : env.serverInit = DevDriver.Result.Success) (hr : p.m_pRgpServer = none) :
    (env.findFirstClient ≠ DevDriver.Result.Success →
        (EarlyInitDevDriver cfg env p).2.1.m_pDevDriverServer = none ∧
          (EarlyInitDevDriver cfg env p).2.1.m_pRgpServer = none ∧
          (EarlyInitDevDriver cfg env p).2.2 =
            [Call.IsConnectionAvailable, Call.NewDevDriverServer, Call.DevDriverServerInit,
              Call.GetMessageChannel, Call.FindFirstClient, Call.DeleteDevDriverServer,
              Call.SettingsLoaderInit] ++
              if env.settingsLoaderInit = Result.Success then [Call.EventProviderInit] else []) ∧
      (env.findFirstClient = DevDriver.Result.Success →
        (EarlyInitDevDriver cfg env p).2.1.m_pDevDriverServer = some a ∧
          (EarlyInitDevDriver cfg env p).2.1.m_pRgpServer = env.getRGPServer) ∧
      (EarlyInitDevDriver cfg env p).1 =
        (if env.settingsLoaderInit = Result.Success then env.eventProviderInit
          else env.settingsLoaderInit) := by
  refine ⟨?_, ?_, EarlyInitDevDriver_result cfg env p⟩
  · intro hfind
    unfold EarlyInitDevDriver
    by_cases h : env.settingsLoaderInit = Result.Success <;>
      simp [h, hconn, hnew, hinit, hfind, hr]
  · intro hfind
    unfold EarlyInitDevDriver
    by_cases h : env.settingsLoaderInit = Result.Success <;>
      simp [h, hconn, hnew, hinit, hfind]

/-- Witness for C14, amended: discovery that finds no tool, and discovery that finds one. -/
theorem early_init_discovery_witness :
    (EarlyInitDevDriver cfgNew envNoTool (Platform.new true)).2.1.m_pDevDriverServer = none ∧
      (EarlyInitDevDriver cfgNew envReady (Platform.new true)).2.1.m_pDevDriverServer =
        some 1 ∧
      (EarlyInitDevDriver cfgNew envReady (Platform.new true)).2.1.m_pRgpServer = some 2 :=
  ⟨((early_init_discovery cfgNew envNoTool (Platform.new true) 1 rfl rfl rfl rfl).1
      (by decide)).1,
    ((early_init_discovery cfgNew envReady (Platform.new true) 1 rfl rfl rfl rfl).2.1 rfl).1,
    ((early_init_discovery cfgNew envReady (Platform.new true) 1 rfl rfl rfl rfl).2.1 rfl).2⟩

/-! ## Teardown -/

/-- C15: from every state `DestroyDevDriver` first destroys the event provider; then, if there
is a bus client, it calls the client's `Destroy()` with the cached RGP server pointer already
null and deletes the client. Afterwards there is no bus client, and the cached RGP server
pointer is null too in every state in which it was set only while there was a client; a second
call destroys the event provider and touches no client. -/
theorem destroy_dev_driver (p : Platform) :
    (DestroyDevDriver p).2 =
        (if p.m_pDevDriverServer ≠ none then
          [Call.EventProviderDestroy, Call.DevDriverServerDestroy none,
            Call.DeleteDevDriverServer]
        else [Call.EventProviderDestroy]) ∧
      (DestroyDevDriver p).1.m_pDevDriverServer = none ∧
      (p.cachedPointersValid → (DestroyDevDriver p).1.m_pRgpServer = none) ∧
      (DestroyDevDriver (DestroyDevDriver p).1).2 = [Call.EventProviderDestroy] ∧
      (DestroyDevDriver (DestroyDevDriver p).1).1 = (DestroyDevDriver p).1 := by
  unfold Platform.cachedPointersValid DestroyDevDriver
  by_cases hs : p.m_pDevDriverServer = none
  · have hr : (p.m_pRgpServer ≠ none → p.m_pDevDriverServer ≠ none) → p.m_pRgpServer = none := by
      intro hinv
      by_contra hne
      exact hinv hne hs
    simp [hs, hr]
  · simp [hs]

/-- Witness for C15: teardown of a platform with a bus client and a cached RGP server, and
of a platform as constructed. -/
theorem destroy_dev_driver_witness :
    (DestroyDevDriver platformReady).2 =
        [Call.EventProviderDestroy, Call.DevDriverServerDestroy none,
          Call.DeleteDevDriverServer] ∧
      (DestroyDevDriver platformReady).1.m_pDevDriverServer = none ∧
      (DestroyDevDriver platformReady).1.m_pRgpServer = none ∧
      (DestroyDevDriver (DestroyDevDriver platformReady).1).2 = [Call.EventProviderDestroy] ∧
      (DestroyDevDriver (Platform.new true)).2 = [Call.EventProviderDestroy] :=
  ⟨(destroy_dev_driver platformReady).1,
    (destroy_dev_driver platformReady).2.1,
    (destroy_dev_driver platformReady).2.2.1 (fun _ => by decide),
    (destroy_dev_driver platformReady).2.2.2.1,
    (destroy_dev_driver (Platform.new true)).1⟩

/-! ## Bootstrap order -/

/-- C16: the bootstrap steps `Init` enters are an initial part of the order `IPlatform::Init`,
`EarlyInitDevDriver`, `ConnectToOsInterface`, `ReEnumerateDevices`, `LateInitDevDriver`,
`InitProperties`; each step is entered exactly when every earlier one returned `Success`, so
devices are enumerated only after early init succeeded and late init runs at most once and only
after a successful enumeration; and `Init` returns the result of the first step that fails, or
that of `InitProperties`. -/
theorem init_step_order (cfg : BuildConfig) (env : Env) (p : Platform) :
    (Init cfg env p).2.2.filter Call.isStep <+: initOrder ∧
      (Call.EarlyInitDevDriver ∈ (Init cfg env p).2.2 ↔ env.iPlatformInit = Result.Success) ∧
      (Call.ConnectToOsInterface ∈ (Init cfg env p).2.2 ↔
        env.iPlatformInit = Result.Success ∧
          (EarlyInitDevDriver cfg env p).1 = Result.Success) ∧
      (Call.ReEnumerateDevices ∈ (Init cfg env p).2.2 ↔
        env.iPlatformInit = Result.Success ∧
          (EarlyInitDevDriver cfg env p).1 = Result.Success ∧
          env.connectToOsInterface = Result.Success) ∧
      (Call.LateInitDevDriver ∈ (Init cfg env p).2.2 ↔
        env.iPlatformInit = Result.Success ∧
          (EarlyInitDevDriver cfg env p).1 = Result.Success ∧
          env.connectToOsInterface = Result.Success ∧
          env.reQueryDevices.1 = Result.Success) ∧
      (Call.InitProperties ∈ (Init cfg env p).2.2 ↔
        env.iPlatformInit = Result.Success ∧
          (EarlyInitDevDriver cfg env p).1 = Result.Success ∧
          env.connectToOsInterface = Result.Success ∧
          env.reQueryDevices.1 = Result.Success) ∧
      (Init cfg env p).2.2.count Call.LateInitDevDriver ≤ 1 ∧
      (Init cfg env p).1 =
        (if env.iPlatformInit ≠ Result.Success then env.iPlatformInit
        else if (EarlyInitDevDriver cfg env p).1 ≠ Result.Success then
          (EarlyInitDevDriver cfg env p).1
        else if env.connectToOsInterface ≠ Result.Success then env.connectToOsInterface
        else if env.reQueryDevices.1 ≠ Result.Success then env.reQueryDevices.1
        else InitProperties) := by
  have h := Init_steps cfg env p
  have hmem : ∀ c : Call, c.isStep = true →
      (c ∈ (Init cfg env p).2.2 ↔ c ∈ (Init cfg env p).2.2.filter Call.isStep) := by
    intro c hc
    simp [List.mem_filter, hc]
  have hcount : (Init cfg env p).2.2.count Call.LateInitDevDriver =
      ((Init cfg env p).2.2.filter Call.isStep).count Call.LateInitDevDriver := by
    rw [List.count_filter]
    rfl
  rw [hmem Call.EarlyInitDevDriver rfl, hmem Call.ConnectToOsInterface rfl,
    hmem Call.ReEnumerateDevices rfl, hmem Call.LateInitDevDriver rfl,
    hmem Call.InitProperties rfl, hcount]
  by_cases h1 : env.iPlatformInit = Result.Success <;>
    by_cases h2 : (EarlyInitDevDriver cfg env p).1 = Result.Success <;>
    by_cases h3 : env.connectToOsInterface = Result.Success <;>
    by_cases h4 : env.reQueryDevices.1 = Result.Success <;>
    simp only [h1, h2, h3, h4, if_true, if_false, Prod.mk.injEq] at h <;>
    rw [h.1, h.2] <;>
    simp [h1, h2, h3, h4, initOrder, List.IsPrefix]

/-- Witness for C16: when every step succeeds all six steps are entered in order and `Init`
succeeds; when early init fails nothing after it is entered and its failure is returned. -/
theorem init_step_order_witness :
    (Init cfgNew envReady (Platform.new true)).2.2.filter Call.isStep = initOrder ∧
      (Init cfgNew envReady (Platform.new true)).1 = Result.Success ∧
      (Init cfgNew { envReady with settingsLoaderInit := Result.ErrorUnknown }
        (Platform.new true)).2.2.filter Call.isStep =
        [Call.IPlatformInit, Call.EarlyInitDevDriver] ∧
      (Init cfgNew { envReady with settingsLoaderInit := Result.ErrorUnknown }
        (Platform.new true)).1 = Result.ErrorUnknown :=
  ⟨by decide,
    (init_step_order cfgNew envReady (Platform.new true)).2.2.2.2.2.2.2.trans (by decide),
    by decide,
    (init_step_order cfgNew { envReady with settingsLoaderInit := Result.ErrorUnknown }
      (Platform.new true)).2.2.2.2.2.2.2.trans (by decide)⟩

/-! ## Late init -/

/-- Counterexample for C17: a bus client exists, one device is enumerated, and both the client
and the device support RGP traces, yet in a build against a client interface older than the
driver-control cleanup version late init does not call `EnableTraces`. -/
theorem late_init_old_interface_no_traces :
    platformReady.m_pDevDriverServer ≠ none ∧
      platformReady.m_deviceCount ≥ 1 ∧
      platformReady.supportRgpTraces = true ∧
      platformReady.m_pDevice.head? = some ⟨true⟩ ∧
      Call.EnableTraces ∉ (LateInitDevDriver cfgOld platformReady).2 := by
  decide

/-- C17, amended: late init calls `EnableTraces` if and only if the build is against a client
interface at or above the driver-control cleanup version, a bus client exists, at least one
device was enumerated, the platform was created with `supportRgpTraces` and the first device
reports `supportRgpTraces`; it calls it at most once. -/
theorem late_init_enable_traces (cfg : BuildConfig) (p : Platform) :
    (Call.EnableTraces ∈ (LateInitDevDriver cfg p).2 ↔
        cfg.GPUOPEN_CLIENT_INTERFACE_MAJOR_VERSION ≥ cfg.GPUOPEN_DRIVER_CONTROL_CLEANUP_VERSION ∧
          p.m_pDevDriverServer ≠ none ∧
          p.m_deviceCount ≥ 1 ∧
          p.supportRgpTraces = true ∧
          ∃ pDevice0, p.m_pDevice.head? = some pDevice0 ∧ pDevice0.supportRgpTraces = true) ∧
      (LateInitDevDriver cfg p).2.count Call.EnableTraces ≤ 1 := by
  unfold LateInitDevDriver
  rcases p with ⟨devs, srv, rgp, flag⟩
  rcases devs with _ | ⟨⟨d⟩, devs⟩
  · cases srv <;> cases flag <;>
      by_cases h1 : cfg.GPUOPEN_CLIENT_INTERFACE_MAJOR_VERSION ≥
        cfg.GPUOPEN_DRIVER_CONTROL_CLEANUP_VERSION <;>
      by_cases h2 : cfg.PAL_CLIENT_INTERFACE_MAJOR_VERSION < 613 <;>
      simp [h1, h2, Platform.m_deviceCount, List.count_cons, List.count_append]
  · cases srv <;> cases flag <;> cases d <;>
      by_cases h1 : cfg.GPUOPEN_CLIENT_INTERFACE_MAJOR_VERSION ≥
        cfg.GPUOPEN_DRIVER_CONTROL_CLEANUP_VERSION <;>
      by_cases h2 : cfg.PAL_CLIENT_INTERFACE_MAJOR_VERSION < 613 <;>
      simp [h1, h2, Platform.m_deviceCount, List.count_cons, List.count_append]

/-- Witness for C17, amended: with the newer interface, a bus client, a device and both trace
flags, `EnableTraces` is called. -/
theorem late_init_enable_traces_witness :
    Call.EnableTraces ∈ (LateInitDevDriver cfgNew platformReady).2 ∧
      (LateInitDevDriver cfgNew platformReady).2.count Call.EnableTraces ≤ 1 :=
  ⟨(late_init_enable_traces cfgNew platformReady).1.2
      ⟨by decide, by decide, by decide, rfl, ⟨true⟩, rfl, rfl⟩,
    (late_init_enable_traces cfgNew platformReady).2⟩

/-! ## Queries without a bus client -/

/-- C18: on a platform without a bus client, whose cached RGP server pointer is set only
while there is a client, `IsDevDriverProfilingEnabled` and `ShowDevDriverOverlay` both return
false and make no call. -/
theorem queries_without_client (env : Env) (p : Platform) (hinv : p.cachedPointersValid)
    (hs : p.m_pDevDriverServer = none) :
    IsDevDriverProfilingEnabled env p = (false, []) ∧
      ShowDevDriverOverlay env p = (false, []) := by
  have hr : p.m_pRgpServer = none := by
    by_contra hne
    exact hinv hne hs
  simp [IsDevDriverProfilingEnabled, ShowDevDriverOverlay, hs, hr]

/-- Witness for C18: a platform as constructed, a platform whose early init dropped the
client, and a platform after teardown, with a bus that would answer true. -/
theorem queries_without_client_witness :
    (IsDevDriverProfilingEnabled envReady (Platform.new true) = (false, []) ∧
        ShowDevDriverOverlay envReady (Platform.new true) = (false, [])) ∧
      (IsDevDriverProfilingEnabled envReady
          (EarlyInitDevDriver cfgNew envInitFails (Platform.new true)).2.1 = (false, []) ∧
        ShowDevDriverOverlay envReady
          (EarlyInitDevDriver cfgNew envInitFails (Platform.new true)).2.1 = (false, [])) ∧
      (IsDevDriverProfilingEnabled envReady (DestroyDevDriver platformReady).1 = (false, []) ∧
        ShowDevDriverOverlay envReady (DestroyDevDriver platformReady).1 = (false, [])) :=
  ⟨queries_without_client envReady (Platform.new true) (fun h => absurd rfl h) rfl,
    queries_without_client envReady
      (EarlyInitDevDriver cfgNew envInitFails (Platform.new true)).2.1
      (fun h => absurd rfl h) rfl,
    queries_without_client envReady (DestroyDevDriver platformReady).1
      (fun h => absurd rfl h) rfl⟩

/-! ## Performance experiments before finalization -/

/-- C19: on an experiment that is not finalized `BindGpuMemory` returns `ErrorUnavailable`
for every memory object and offset; it leaves the experiment, and so the bound memory,
unchanged; the only call it makes is the resource-create event, so the bind input is not
validated and no resource-bind event is logged; and calling it again gives the same. -/
theorem bind_before_finalize (validate : Option Nat → Nat → Nat → Nat → Bool → Result)
    (pe : PerfExperiment) (pGpuMemory : Option Nat) (offset : Nat)
    (h : pe.m_isFinalized = false) :
    BindGpuMemory validate pe pGpuMemory offset =
        (Result.ErrorUnavailable, pe,
          [PerfCall.LogGpuMemoryResourceCreateEvent (bindDescription pe)]) ∧
      (BindGpuMemory validate pe pGpuMemory offset).2.1.m_gpuMemory = pe.m_gpuMemory ∧
      BindGpuMemory validate (BindGpuMemory validate pe pGpuMemory offset).2.1 pGpuMemory
        offset = BindGpuMemory validate pe pGpuMemory offset := by
  have h1 : BindGpuMemory validate pe pGpuMemory offset =
      (Result.ErrorUnavailable, pe,
        [PerfCall.LogGpuMemoryResourceCreateEvent (bindDescription pe)]) := by
    simp [BindGpuMemory, h]
  refine ⟨h1, ?_, ?_⟩
  · rw [h1]
  · rw [h1]
    exact h1

/-- Witness for C19: a new experiment, with a validation that would accept anything. -/
theorem bind_before_finalize_witness :
    BindGpuMemory (fun _ _ _ _ _ => Result.Success) (PerfExperiment.new 4096) (some 7) 256 =
      (Result.ErrorUnavailable, PerfExperiment.new 4096,
        [PerfCall.LogGpuMemoryResourceCreateEvent ⟨0, 0, 0⟩]) :=
  (bind_before_finalize (fun _ _ _ _ _ => Result.Success) (PerfExperiment.new 4096) (some 7)
    256 rfl).1

/-- Counterexample for C20: on a new experiment, which is not finalized,
`GetGpuMemoryRequirements` overwrites the size, the alignment, the heap count and the first
heap of the output; the failed assertion is the only sign of the missing finalization. -/
theorem requirements_before_finalize_are_written :
    (PerfExperiment.new 4096).m_isFinalized = false ∧
      GetGpuMemoryRequirements (PerfExperiment.new 4096)
          ⟨7, 7, 0, [GpuHeap.GpuHeapLocal, GpuHeap.GpuHeapLocal, GpuHeap.GpuHeapLocal,
            GpuHeap.GpuHeapLocal]⟩ =
        (⟨0, 4096, 1, [GpuHeap.GpuHeapGartUswc, GpuHeap.GpuHeapLocal, GpuHeap.GpuHeapLocal,
            GpuHeap.GpuHeapLocal]⟩, [PerfCall.AssertFailed]) := by
  decide

/-- C20, amended: on an experiment that is not finalized `GetGpuMemoryRequirements` returns
no error; its only sign of the missing finalization is the assertion, and it writes the heap
count, the heaps, the size `m_totalMemSize` and the alignment `m_memAlignment` to the output
exactly as it does for a finalized experiment. -/
theorem requirements_before_finalize (pe : PerfExperiment) (pGpuMemReqs : GpuMemoryRequirements)
    (h : pe.m_isFinalized = false) :
    (GetGpuMemoryRequirements pe pGpuMemReqs).2 = [PerfCall.AssertFailed] ∧
      (GetGpuMemoryRequirements pe pGpuMemReqs).1.size = pe.m_totalMemSize ∧
      (GetGpuMemoryRequirements pe pGpuMemReqs).1.alignment = pe.m_memAlignment ∧
      (GetGpuMemoryRequirements pe pGpuMemReqs).1.heapCount =
        (if pe.m_perfExperimentFlags.sqtTraceEnabled || pe.m_perfExperimentFlags.spmTraceEnabled
          then 2 else 1) ∧
      (GetGpuMemoryRequirements pe pGpuMemReqs).1 =
        (GetGpuMemoryRequirements { pe with m_isFinalized := true } pGpuMemReqs).1 := by
  unfold GetGpuMemoryRequirements
  by_cases hf : (pe.m_perfExperimentFlags.sqtTraceEnabled ||
      pe.m_perfExperimentFlags.spmTraceEnabled) = true <;> simp [h, hf]

/-- Witness for C20, amended: a new experiment. -/
theorem requirements_before_finalize_witness :
    (GetGpuMemoryRequirements (PerfExperiment.new 4096)
        ⟨7, 7, 0, [GpuHeap.GpuHeapLocal]⟩).1.size = 0 ∧
      (GetGpuMemoryRequirements (PerfExperiment.new 4096)
        ⟨7, 7, 0, [GpuHeap.GpuHeapLocal]⟩).1.alignment = 4096 :=
  ⟨(requirements_before_finalize (PerfExperiment.new 4096) ⟨7, 7, 0, [GpuHeap.GpuHeapLocal]⟩
      rfl).2.1,
    (requirements_before_finalize (PerfExperiment.new 4096) ⟨7, 7, 0, [GpuHeap.GpuHeapLocal]⟩
      rfl).2.2.1⟩

/-! ## Performance experiments: the described regions -/

/-- A wrapped difference, seen modulo `2 ^ 64`. -/
theorem gpusizeSub_cast (a b : Nat) :
    ((gpusizeSub a b : Nat) : ZMod (2 ^ 64)) = (a : ZMod (2 ^ 64)) - b := by
  unfold gpusizeSub
  have hb : b % 2 ^ 64 ≤ 2 ^ 64 := (Nat.mod_lt b (by norm_num)).le
  rw [ZMod.natCast_mod, Nat.cast_add, ZMod.natCast_mod, Nat.cast_sub hb, ZMod.natCast_mod]
  have h0 : ((2 ^ 64 : Nat) : ZMod (2 ^ 64)) = 0 := ZMod.natCast_self _
  rw [h0]
  ring

/-- A wrapped sum, seen modulo `2 ^ 64`. -/
theorem gpusizeAdd_cast (a b : Nat) :
    ((gpusizeAdd a b : Nat) : ZMod (2 ^ 64)) = (a : ZMod (2 ^ 64)) + b := by
  unfold gpusizeAdd
  rw [ZMod.natCast_mod, Nat.cast_add]

/-- Without wrap-around the 64-bit size of a range is the last offset minus the first, plus
one. -/
theorem gpusize_range (lo hi : Nat) (h1 : lo ≤ hi) (h2 : hi + 1 < 2 ^ 64) :
    gpusizeAdd (gpusizeSub hi lo) 1 = hi - lo + 1 := by
  have hlo : lo < 2 ^ 64 := by omega
  have hhi : hi < 2 ^ 64 := by omega
  unfold gpusizeAdd gpusizeSub
  rw [Nat.mod_eq_of_lt hhi, Nat.mod_eq_of_lt hlo]
  have h3 : hi + (2 ^ 64 - lo) = (hi - lo) + 2 ^ 64 := by omega
  rw [h3, Nat.add_mod_right, Nat.mod_eq_of_lt (by omega), Nat.mod_eq_of_lt (by omega)]

/-- C21: a finalized experiment whose only region is the SPM ring at offset 0 of an allocation
of 4096 bytes reports the size 4096, while `BindGpuMemory` describes that region with 4097
bytes; with all three regions enabled at offsets 0, 1024 and 2048 of 4096 bytes the described
sizes are 1025, 1025 and 2049, which add up to 4099. -/
theorem described_regions_exceed_total :
    (GetGpuMemoryRequirements
        ⟨256, true, ⟨false, false, true⟩, 0, 0, 0, 4096, ⟨none, 0⟩⟩ ⟨0, 0, 0, []⟩).1.size =
        4096 ∧
      bindDescription ⟨256, true, ⟨false, false, true⟩, 0, 0, 0, 4096, ⟨none, 0⟩⟩ =
        ⟨0, 0, 4097⟩ ∧
      (GetGpuMemoryRequirements
        ⟨256, true, ⟨true, true, true⟩, 0, 1024, 2048, 4096, ⟨none, 0⟩⟩ ⟨0, 0, 0, []⟩).1.size =
        4096 ∧
      bindDescription ⟨256, true, ⟨true, true, true⟩, 0, 1024, 2048, 4096, ⟨none, 0⟩⟩ =
        ⟨1025, 1025, 2049⟩ := by
  decide

/-- C27: `BindGpuMemory` logs the resource-create event first and exactly once on every call,
whatever the finalization state and the outcome of the validation. It returns `Success`
exactly when the experiment is finalized and the validation succeeds; then, and only then, it
sets the bound memory to the given object and offset and logs one resource-bind event with the
total size and the given offset. -/
theorem bind_events (validate : Option Nat → Nat → Nat → Nat → Bool → Result)
    (pe : PerfExperiment) (pGpuMemory : Option Nat) (offset : Nat) :
    (BindGpuMemory validate pe pGpuMemory offset).2.2.head? =
        some (PerfCall.LogGpuMemoryResourceCreateEvent (bindDescription pe)) ∧
      (∀ desc, (BindGpuMemory validate pe pGpuMemory offset).2.2.count
        (PerfCall.LogGpuMemoryResourceCreateEvent desc) =
          if desc = bindDescription pe then 1 else 0) ∧
      ((BindGpuMemory validate pe pGpuMemory offset).1 = Result.Success ↔
        pe.m_isFinalized = true ∧
          validate pGpuMemory offset pe.m_totalMemSize pe.m_memAlignment false =
            Result.Success) ∧
      ((BindGpuMemory validate pe pGpuMemory offset).1 = Result.Success →
        (BindGpuMemory validate pe pGpuMemory offset).2.1 =
            { pe with m_gpuMemory := ⟨pGpuMemory, offset⟩ } ∧
          (BindGpuMemory validate pe pGpuMemory offset).2.2 =
            [PerfCall.LogGpuMemoryResourceCreateEvent (bindDescription pe),
              PerfCall.ValidateBindObjectMemoryInput pGpuMemory offset pe.m_totalMemSize
                pe.m_memAlignment,
              PerfCall.LogGpuMemoryResourceBindEvent pGpuMemory pe.m_totalMemSize offset]) ∧
      ((BindGpuMemory validate pe pGpuMemory offset).1 ≠ Result.Success →
        (BindGpuMemory validate pe pGpuMemory offset).2.1 = pe ∧
          ∀ g size o, PerfCall.LogGpuMemoryResourceBindEvent g size o ∉
            (BindGpuMemory validate pe pGpuMemory offset).2.2) := by
  unfold BindGpuMemory
  cases hf : pe.m_isFinalized
  · refine ⟨?_, ?_, ?_, ?_, ?_⟩
    · simp
    · intro desc
      by_cases hd : desc = bindDescription pe
      · simp [hd]
      · simp [hd, Ne.symm hd]
    · simp
    · simp
    · simp
  · by_cases hv : validate pGpuMemory offset pe.m_totalMemSize pe.m_memAlignment false =
        Result.Success
    · refine ⟨?_, ?_, ?_, ?_, ?_⟩
      · simp [hv]
      · intro desc
        by_cases hd : desc = bindDescription pe
        · simp [hv, hd, List.count_cons]
        · simp [hv, hd, Ne.symm hd, List.count_cons]
      · simp [hv]
      · simp [hv]
      · simp [hv]
    · refine ⟨?_, ?_, ?_, ?_, ?_⟩
      · simp [hv]
      · intro desc
        by_cases hd : desc = bindDescription pe
        · simp [hv, hd, List.count_cons]
        · simp [hv, hd, Ne.symm hd, List.count_cons]
      · simp [hv]
      · simp [hv]
      · simp [hv]

/-- Witness for C27: a finalized experiment whose bind input is accepted, and one whose bind
input is refused. -/
theorem bind_events_witness :
    BindGpuMemory (fun _ _ _ _ _ => Result.Success)
        ⟨256, true, ⟨true, false, false⟩, 0, 1023, 0, 4096, ⟨none, 0⟩⟩ (some 7) 512 =
        (Result.Success,
          ⟨256, true, ⟨true, false, false⟩, 0, 1023, 0, 4096, ⟨some 7, 512⟩⟩,
          [PerfCall.LogGpuMemoryResourceCreateEvent ⟨1024, 0, 0⟩,
            PerfCall.ValidateBindObjectMemoryInput (some 7) 512 4096 256,
            PerfCall.LogGpuMemoryResourceBindEvent (some 7) 4096 512]) ∧
      (BindGpuMemory (fun _ _ _ _ _ => Result.ErrorInvalidPointer)
        ⟨256, true, ⟨true, false, false⟩, 0, 1023, 0, 4096, ⟨none, 0⟩⟩ none 512).2.1 =
        ⟨256, true, ⟨true, false, false⟩, 0, 1023, 0, 4096, ⟨none, 0⟩⟩ :=
  ⟨by
      have h := (bind_events (fun _ _ _ _ _ => Result.Success)
        ⟨256, true, ⟨true, false, false⟩, 0, 1023, 0, 4096, ⟨none, 0⟩⟩ (some 7) 512).2.2.2.1
        (by decide)
      exact Prod.ext (by decide) (Prod.ext h.1 (h.2.trans (by decide))),
    ((bind_events (fun _ _ _ _ _ => Result.ErrorInvalidPointer)
      ⟨256, true, ⟨true, false, false⟩, 0, 1023, 0, 4096, ⟨none, 0⟩⟩ none 512).2.2.2.2
      (by decide)).1⟩

/-- C28: in the description `BindGpuMemory` builds, a region whose flag is clear has size 0 and
an enabled region has the 64-bit size of its two offsets, the later minus the earlier plus one
(counters: end and begin; SQTT: SPM ring and end; SPM: total size and SPM ring). So with all
three regions enabled the three sizes add up, modulo `2 ^ 64`, to the total size minus the
begin offset plus 3, for all values of the four offsets. -/
theorem bind_description_sizes (pe : PerfExperiment) :
    (bindDescription pe).perfCounterSize =
        (if pe.m_perfExperimentFlags.perfCtrsEnabled then
          gpusizeAdd (gpusizeSub pe.m_globalEndOffset pe.m_globalBeginOffset) 1 else 0) ∧
      (bindDescription pe).sqttSize =
        (if pe.m_perfExperimentFlags.sqtTraceEnabled then
          gpusizeAdd (gpusizeSub pe.m_spmRingOffset pe.m_globalEndOffset) 1 else 0) ∧
      (bindDescription pe).spmSize =
        (if pe.m_perfExperimentFlags.spmTraceEnabled then
          gpusizeAdd (gpusizeSub pe.m_totalMemSize pe.m_spmRingOffset) 1 else 0) ∧
      (pe.m_perfExperimentFlags.perfCtrsEnabled = true →
        pe.m_perfExperimentFlags.sqtTraceEnabled = true →
        pe.m_perfExperimentFlags.spmTraceEnabled = true →
        ((bindDescription pe).perfCounterSize + (bindDescription pe).sqttSize +
            (bindDescription pe).spmSize) % 2 ^ 64 =
          gpusizeAdd (gpusizeSub pe.m_totalMemSize pe.m_globalBeginOffset) 3) := by
  have h1 : (bindDescription pe).perfCounterSize =
      (if pe.m_perfExperimentFlags.perfCtrsEnabled then
        gpusizeAdd (gpusizeSub pe.m_globalEndOffset pe.m_globalBeginOffset) 1 else 0) := by
    unfold bindDescription
    cases pe.m_perfExperimentFlags.perfCtrsEnabled <;>
      cases pe.m_perfExperimentFlags.sqtTraceEnabled <;>
      cases pe.m_perfExperimentFlags.spmTraceEnabled <;> rfl
  have h2 : (bindDescription pe).sqttSize =
      (if pe.m_perfExperimentFlags.sqtTraceEnabled then
        gpusizeAdd (gpusizeSub pe.m_spmRingOffset pe.m_globalEndOffset) 1 else 0) := by
    unfold bindDescription
    cases pe.m_perfExperimentFlags.perfCtrsEnabled <;>
      cases pe.m_perfExperimentFlags.sqtTraceEnabled <;>
      cases pe.m_perfExperimentFlags.spmTraceEnabled <;> rfl
  have h3 : (bindDescription pe).spmSize =
      (if pe.m_perfExperimentFlags.spmTraceEnabled then
        gpusizeAdd (gpusizeSub pe.m_totalMemSize pe.m_spmRingOffset) 1 else 0) := by
    unfold bindDescription
    cases pe.m_perfExperimentFlags.perfCtrsEnabled <;>
      cases pe.m_perfExperimentFlags.sqtTraceEnabled <;>
      cases pe.m_perfExperimentFlags.spmTraceEnabled <;> rfl
  refine ⟨h1, h2, h3, ?_⟩
  intro e1 e2 e3
  rw [h1, h2, h3, e1, e2, e3]
  simp only [if_true]
  have h : ((gpusizeAdd (gpusizeSub pe.m_globalEndOffset pe.m_globalBeginOffset) 1 +
      gpusizeAdd (gpusizeSub pe.m_spmRingOffset pe.m_globalEndOffset) 1 +
      gpusizeAdd (gpusizeSub pe.m_totalMemSize pe.m_spmRingOffset) 1 : Nat) :
        ZMod (2 ^ 64)) =
      ((gpusizeSub pe.m_totalMemSize pe.m_globalBeginOffset + 3 : Nat) : ZMod (2 ^ 64)) := by
    simp only [Nat.cast_add, gpusizeAdd_cast, gpusizeSub_cast]
    push_cast
    ring
  rw [(ZMod.natCast_eq_natCast_iff' _ _ _).1 h]
  rfl

/-- Witness for C28: offsets 16, 1039 and 2063 of 4096 bytes give the sizes 1024, 1025 and
2034, which add up to 4096 - 16 + 3. -/
theorem bind_description_sizes_witness :
    bindDescription ⟨256, true, ⟨true, true, true⟩, 16, 1039, 2063, 4096, ⟨none, 0⟩⟩ =
        ⟨1024, 1025, 2034⟩ ∧
      (1024 + 1025 + 2034) % 2 ^ 64 = gpusizeAdd (gpusizeSub 4096 16) 3 :=
  ⟨by decide,
    (bind_description_sizes
      ⟨256, true, ⟨true, true, true⟩, 16, 1039, 2063, 4096, ⟨none, 0⟩⟩).2.2.2 rfl rfl rfl⟩

/-! ## The cached pointers -/

/-- Device enumeration leaves the bus client and the cached RGP server alone. -/
theorem ReEnumerateDevices_pointers (env : Env) (p : Platform) :
    (ReEnumerateDevices env p).2.1.m_pDevDriverServer = p.m_pDevDriverServer ∧
      (ReEnumerateDevices env p).2.1.m_pRgpServer = p.m_pRgpServer := by
  unfold ReEnumerateDevices TearDownDevices
  by_cases h : env.reQueryDevices.1 = Result.Success <;> simp [h]

/-- Early init entered without a cached RGP server caches one only together with a client. -/
theorem EarlyInitDevDriver_valid (cfg : BuildConfig) (env : Env) (p : Platform)
    (hr : p.m_pRgpServer = none) :
    (EarlyInitDevDriver cfg env p).2.1.cachedPointersValid := by
  unfold Platform.cachedPointersValid EarlyInitDevDriver
  by_cases h1 : env.isConnectionAvailable = true <;>
    cases h2 : env.newDevDriverServer <;>
    by_cases h3 : env.serverInit = DevDriver.Result.Success <;>
    by_cases h4 : env.findFirstClient = DevDriver.Result.Success <;>
    simp [h1, h2, h3, h4, hr]

/-- C24: the cached RGP server pointer is set only while there is a bus client. This holds
after construction, where both are null; early init, entered as `Init` enters it with no RGP
server cached, establishes it on every path; late init and teardown preserve it, and so it
holds after the whole of `Init` and after teardown, which leaves both pointers null. -/
theorem cached_pointers_invariant (cfg : BuildConfig) (env : Env) :
    (∀ b, (Platform.new b).cachedPointersValid) ∧
      (∀ p : Platform, p.m_pRgpServer = none →
        (EarlyInitDevDriver cfg env p).2.1.cachedPointersValid) ∧
      (∀ p : Platform, p.cachedPointersValid →
        (LateInitDevDriver cfg p).1.cachedPointersValid) ∧
      (∀ p : Platform, p.cachedPointersValid →
        (DestroyDevDriver p).1.cachedPointersValid ∧
          (DestroyDevDriver p).1.m_pRgpServer = none) ∧
      (∀ p : Platform, p.m_pRgpServer = none → (Init cfg env p).2.1.cachedPointersValid) := by
  refine ⟨?_, ?_, ?_, ?_, ?_⟩
  · intro b h
    exact absurd rfl h
  · intro p hr
    exact EarlyInitDevDriver_valid cfg env p hr
  · intro p hinv
    exact hinv
  · intro p hinv
    unfold Platform.cachedPointersValid at hinv ⊢
    unfold DestroyDevDriver
    by_cases hs : p.m_pDevDriverServer = none
    · have hr : p.m_pRgpServer = none := by
        by_contra hne
        exact hinv hne hs
      simp [hs, hr]
    · simp [hs]
  · intro p hr
    have hE := EarlyInitDevDriver_valid cfg env p hr
    have hR := ReEnumerateDevices_pointers env (EarlyInitDevDriver cfg env p).2.1
    unfold Platform.cachedPointersValid at hE ⊢
    unfold Init
    by_cases h1 : env.iPlatformInit = Result.Success <;>
      by_cases h2 : (EarlyInitDevDriver cfg env p).1 = Result.Success <;>
      by_cases h3 : env.connectToOsInterface = Result.Success <;>
      by_cases h4 : env.reQueryDevices.1 = Result.Success <;>
      simp [h1, h2, h3, h4, hr, hR.1, hR.2, (ReEnumerateDevices_steps env _).2,
        LateInitDevDriver] <;>
      exact hE

/-- Witness for C24: after a successful `Init` of a new platform the client is at address 1
and the RGP server cached at address 2; after teardown both are null. -/
theorem cached_pointers_invariant_witness :
    (Init cfgNew envReady (Platform.new true)).2.1.cachedPointersValid ∧
      (Init cfgNew envReady (Platform.new true)).2.1.m_pDevDriverServer = some 1 ∧
      (Init cfgNew envReady (Platform.new true)).2.1.m_pRgpServer = some 2 ∧
      (DestroyDevDriver (Init cfgNew envReady (Platform.new true)).2.1).1.m_pRgpServer = none :=
  ⟨(cached_pointers_invariant cfgNew envReady).2.2.2.2 (Platform.new true) rfl,
    by decide, by decide,
    ((cached_pointers_invariant cfgNew envReady).2.2.2.1
      (Init cfgNew envReady (Platform.new true)).2.1
      ((cached_pointers_invariant cfgNew envReady).2.2.2.2 (Platform.new true) rfl)).2⟩

/-! ## Late init: the bus and the settings -/

/-- C25: late init touches the bus only if there is a bus client. Without one its only calls
are `ReadSettings`, made exactly when at least one device is enumerated, and then
`OverrideDefaults`. With one it first registers the info source `pal` with version 1, reports
`m_deviceCount` through `SetNumGpus` and sets the clock callbacks, then reads the settings and
overrides the defaults in the same way. `OverrideDefaults` is called exactly once on every
path. -/
theorem late_init_bus_and_settings (cfg : BuildConfig) (p : Platform) :
    (p.m_pDevDriverServer = none →
        (LateInitDevDriver cfg p).2 =
          (if p.m_deviceCount ≥ 1 then [Call.ReadSettings] else []) ++
            [Call.OverrideDefaults]) ∧
      (p.m_pDevDriverServer ≠ none →
        ([Call.GetDriverControlServer, Call.RegisterInfoSource "pal" 1,
            Call.SetNumGpus p.m_deviceCount, Call.SetDeviceClockCallback] ++
          (if p.m_deviceCount ≥ 1 then [Call.ReadSettings] else []) ++
            [Call.OverrideDefaults]) <+: (LateInitDevDriver cfg p).2) ∧
      (Call.ReadSettings ∈ (LateInitDevDriver cfg p).2 ↔ p.m_deviceCount ≥ 1) ∧
      (LateInitDevDriver cfg p).2.count Call.ReadSettings ≤ 1 ∧
      (LateInitDevDriver cfg p).2.count Call.OverrideDefaults = 1 ∧
      (∀ n, Call.SetNumGpus n ∈ (LateInitDevDriver cfg p).2 →
        n = p.m_deviceCount ∧ p.m_pDevDriverServer ≠ none) ∧
      (∀ name version, Call.RegisterInfoSource name version ∈ (LateInitDevDriver cfg p).2 →
        name = "pal" ∧ version = 1 ∧ p.m_pDevDriverServer ≠ none) := by
  unfold LateInitDevDriver
  rcases p with ⟨devs, srv, rgp, flag⟩
  rcases devs with _ | ⟨⟨d⟩, devs⟩
  · cases srv <;> cases flag <;>
      by_cases h1 : cfg.GPUOPEN_CLIENT_INTERFACE_MAJOR_VERSION ≥
        cfg.GPUOPEN_DRIVER_CONTROL_CLEANUP_VERSION <;>
      by_cases h2 : cfg.PAL_CLIENT_INTERFACE_MAJOR_VERSION < 613 <;>
      simp [h1, h2, Platform.m_deviceCount, List.count_cons, List.count_append,
        List.IsPrefix]
  · cases srv <;> cases flag <;> cases d <;>
      by_cases h1 : cfg.GPUOPEN_CLIENT_INTERFACE_MAJOR_VERSION ≥
        cfg.GPUOPEN_DRIVER_CONTROL_CLEANUP_VERSION <;>
      by_cases h2 : cfg.PAL_CLIENT_INTERFACE_MAJOR_VERSION < 613 <;>
      simp [h1, h2, Platform.m_deviceCount, List.count_cons, List.count_append,
        List.IsPrefix]

/-- Witness for C25: late init with a bus client and one device, and with neither. -/
theorem late_init_bus_and_settings_witness :
    (LateInitDevDriver cfgNew platformReady).2 =
        [Call.GetDriverControlServer, Call.RegisterInfoSource "pal" 1, Call.SetNumGpus 1,
          Call.SetDeviceClockCallback, Call.ReadSettings, Call.OverrideDefaults,
          Call.GetProperties, Call.GetRGPServer, Call.EnableTraces,
          Call.GetDriverControlServer] ∧
      (LateInitDevDriver cfgNew (Platform.new true)).2 = [Call.OverrideDefaults] :=
  ⟨by decide, (late_init_bus_and_settings cfgNew (Platform.new true)).1 rfl⟩

/-! ## Event logging -/

/-- C26: `Platform::LogEvent` forwards each of the kinds `GpuMemoryResourceBind`,
`GpuMemoryResourceCreate`, `GpuMemoryResourceDestroy`, `GpuMemoryMisc`, `GpuMemorySnapshot` and
`DebugName` to exactly one call on the event provider, the log function of that kind with the
payload it was given, and makes no call on the event provider for any other event id. -/
theorem log_event_forwarding (sizes : EventDataSizes) (pEventData : Option Nat)
    (eventDataSize : Nat) :
    (Platform.LogEvent sizes PalEvent.GpuMemoryResourceBind pEventData eventDataSize).filter
        EventCall.isProviderCall = [EventCall.LogGpuMemoryResourceBindEvent pEventData] ∧
      (Platform.LogEvent sizes PalEvent.GpuMemoryResourceCreate pEventData eventDataSize).filter
        EventCall.isProviderCall = [EventCall.LogGpuMemoryResourceCreateEvent pEventData] ∧
      (Platform.LogEvent sizes PalEvent.GpuMemoryResourceDestroy pEventData eventDataSize).filter
        EventCall.isProviderCall = [EventCall.LogGpuMemoryResourceDestroyEvent pEventData] ∧
      (Platform.LogEvent sizes PalEvent.GpuMemoryMisc pEventData eventDataSize).filter
        EventCall.isProviderCall = [EventCall.LogGpuMemoryMiscEvent pEventData] ∧
      (Platform.LogEvent sizes PalEvent.GpuMemorySnapshot pEventData eventDataSize).filter
        EventCall.isProviderCall = [EventCall.LogGpuMemorySnapshotEvent pEventData] ∧
      (Platform.LogEvent sizes PalEvent.DebugName pEventData eventDataSize).filter
        EventCall.isProviderCall = [EventCall.LogDebugNameEvent pEventData] ∧
      (∀ eventId : PalEvent,
        eventId ∉ [PalEvent.GpuMemoryResourceBind, PalEvent.GpuMemoryResourceCreate,
          PalEvent.GpuMemoryResourceDestroy, PalEvent.GpuMemoryMisc,
          PalEvent.GpuMemorySnapshot, PalEvent.DebugName] →
        Platform.LogEvent sizes eventId pEventData eventDataSize = [EventCall.AssertAlways]) := by
  have hassert : ∀ c : Bool, (palAssert c).filter EventCall.isProviderCall = [] := by
    intro c
    cases c <;> rfl
  refine ⟨?_, ?_, ?_, ?_, ?_, ?_, ?_⟩
  · simp [Platform.LogEvent, List.filter_append, hassert, EventCall.isProviderCall]
  · simp [Platform.LogEvent, List.filter_append, hassert, EventCall.isProviderCall]
  · simp [Platform.LogEvent, List.filter_append, hassert, EventCall.isProviderCall]
  · simp [Platform.LogEvent, List.filter_append, hassert, EventCall.isProviderCall]
  · simp [Platform.LogEvent, List.filter_append, hassert, EventCall.isProviderCall]
  · simp [Platform.LogEvent, List.filter_append, hassert, EventCall.isProviderCall]
  · intro eventId h
    cases eventId <;> simp at h <;> rfl

/-- C22: `WriteTokenData` hands a token first to the live event protocol, as one `WriteEvent`
with the event id `RmtToken`, the token's data and the token's size, and then to the event
service mirror, once each; so after any sequence of `WriteTokenData` calls each sink has
received the tokens of the sequence in their order. -/
theorem write_token_data_order (token : List Nat) (log : List SinkCall)
    (tokens : List (List Nat)) :
    EventProvider.WriteTokenData token log =
        log ++ [SinkCall.WriteEvent PalEvent.RmtToken token token.length,
          SinkCall.ServiceWriteTokenData token] ∧
      liveTokens (tokens.foldl (fun log token => EventProvider.WriteTokenData token log) []) =
        tokens ∧
      serviceTokens (tokens.foldl (fun log token => EventProvider.WriteTokenData token log) []) =
        tokens := by
  have hlive : ∀ a b : List SinkCall, liveTokens (a ++ b) = liveTokens a ++ liveTokens b := by
    intro a b
    induction a with
    | nil => rfl
    | cons c a ih => cases c <;> simp [liveTokens, ih]
  have hserv : ∀ a b : List SinkCall,
      serviceTokens (a ++ b) = serviceTokens a ++ serviceTokens b := by
    intro a b
    induction a with
    | nil => rfl
    | cons c a ih => cases c <;> simp [serviceTokens, ih]
  have hfold : ∀ (ts : List (List Nat)) (l : List SinkCall),
      liveTokens (ts.foldl (fun log token => EventProvider.WriteTokenData token log) l) =
          liveTokens l ++ ts ∧
        serviceTokens (ts.foldl (fun log token => EventProvider.WriteTokenData token log) l) =
          serviceTokens l ++ ts := by
    intro ts
    induction ts with
    | nil => intro l; simp
    | cons t ts ih =>
      intro l
      rw [List.foldl_cons]
      refine ⟨?_, ?_⟩
      · rw [(ih _).1]
        simp [EventProvider.WriteTokenData, hlive, liveTokens]
      · rw [(ih _).2]
        simp [EventProvider.WriteTokenData, hserv, serviceTokens]
  refine ⟨?_, ?_, ?_⟩
  · simp [EventProvider.WriteTokenData]
  · simpa [liveTokens] using (hfold tokens []).1
  · simpa [serviceTokens] using (hfold tokens []).2

/-- C23: with the event provider disabled, any sequence of calls to the event log functions
leaves both sinks as they were: starting from nothing, neither `WriteEvent` nor the event
service's `WriteTokenData` is called. -/
theorem disabled_provider_logs_nothing (translate : PalEvent → List Nat → List (List Nat))
    (ep : EventProvider) (calls : List (PalEvent × List Nat))
    (h : ep.providerEnabled = false) :
    calls.foldl (fun log c => EventProvider.LogEvent translate ep c.1 c.2 log) [] = [] := by
  have hstep : ∀ (c : PalEvent × List Nat) (log : List SinkCall),
      EventProvider.LogEvent translate ep c.1 c.2 log = log := by
    intro c log
    simp [EventProvider.LogEvent, EventProvider.ShouldLog, h]
  induction calls with
  | nil => rfl
  | cons c calls ih =>
    rw [List.foldl_cons, hstep]
    exact ih

/-- Witness for C23: three log calls on a disabled provider whose events are all enabled and
whose translation would yield a token each; the same calls on an enabled provider reach both
sinks. -/
theorem disabled_provider_logs_nothing_witness :
    [(PalEvent.CreateGpuMemory, [1]), (PalEvent.DebugName, [2]),
        (PalEvent.GpuMemoryMisc, [3])].foldl
        (fun log c => EventProvider.LogEvent (fun _ d => [d]) ⟨false, fun _ => true⟩ c.1 c.2 log)
        [] = [] ∧
      liveTokens ([(PalEvent.CreateGpuMemory, [1]), (PalEvent.DebugName, [2]),
        (PalEvent.GpuMemoryMisc, [3])].foldl
        (fun log c => EventProvider.LogEvent (fun _ d => [d]) ⟨true, fun _ => true⟩ c.1 c.2 log)
        []) = [[1], [2], [3]] :=
  ⟨disabled_provider_logs_nothing (fun _ d => [d]) ⟨false, fun _ => true⟩
      [(PalEvent.CreateGpuMemory, [1]), (PalEvent.DebugName, [2]), (PalEvent.GpuMemoryMisc, [3])]
      rfl,
    by decide⟩

/-! ## ASIC identification -/

/-- Two table entries that are apart never match the same family and revision. -/
theorem chipsApart_sound (a b : Chip × Nat × (Nat × Nat)) (f r : Nat)
    (h : chipsApart a b = true) :
    ¬ (AMDGPU_IS f r a.2.1 a.2.2 = true ∧ AMDGPU_IS f r b.2.1 b.2.2 = true) := by
  simp only [chipsApart, AMDGPU_IS, FAMILY_IS, ASICREV_IS, AMDGPU_IN_RANGE, AMDGPU_RANGE_HELPER,
    Bool.or_eq_true, Bool.and_eq_true, bne_iff_ne, beq_iff_eq, decide_eq_true_eq, ge_iff_le,
    ne_eq] at h ⊢
  omega

/-- The per-chip predicates are the entries of the chip table, in order. -/
theorem perChipPredicates_eq :
    perChipPredicates =
      chipTable.map (fun e => (e.1, fun f r => AMDGPU_IS f r e.2.1 e.2.2)) := rfl

/-- In the chip table every two entries are apart, Carrizo and Bristol excepted. -/
theorem chipTable_apart :
    List.Pairwise (fun a b => chipsApart a b = true ∨ (a.1 = Chip.CARRIZO ∧ b.1 = Chip.BRISTOL))
      chipTable := by
  decide

/-- C30: for every family id and revision id, no two of the 31 per-chip predicates hold
together, except that the predicates of Carrizo and Bristol may, and whatever satisfies the
predicate of Bristol satisfies that of Carrizo. In particular the revision ranges of the VI
and Polaris chips, whose families share the id `0x82`, are pairwise disjoint. -/
theorem at_most_one_chip (f r : Nat) :
    perChipPredicates.length = 31 ∧
      List.Pairwise
        (fun a b => a.2 f r = true → b.2 f r = true → a.1 = Chip.CARRIZO ∧ b.1 = Chip.BRISTOL)
        perChipPredicates ∧
      (AMDGPU_IS_BRISTOL f r = true → AMDGPU_IS_CARRIZO f r = true) ∧
      FAMILY_VI = FAMILY_POLARIS ∧
      List.Pairwise (fun a b => ¬ (ASICREV_IS r a = true ∧ ASICREV_IS r b = true))
        [AMDGPU_ICELAND_RANGE, AMDGPU_TONGA_RANGE, AMDGPU_FIJI_RANGE, AMDGPU_POLARIS10_RANGE,
          AMDGPU_POLARIS11_RANGE, AMDGPU_POLARIS12_RANGE] := by
  refine ⟨rfl, ?_, ?_, rfl, ?_⟩
  · rw [perChipPredicates_eq, List.pairwise_map]
    refine List.Pairwise.imp ?_ chipTable_apart
    intro a b hab ha hb
    rcases hab with hab | hab
    · exact absurd ⟨ha, hb⟩ (chipsApart_sound a b f r hab)
    · exact hab
  · simp only [AMDGPU_IS_BRISTOL, AMDGPU_IS_CARRIZO, AMDGPU_IS, FAMILY_IS, ASICREV_IS,
      AMDGPU_IN_RANGE, AMDGPU_RANGE_HELPER, AMDGPU_BRISTOL_RANGE, AMDGPU_CARRIZO_RANGE,
      Bool.and_eq_true, beq_iff_eq, decide_eq_true_eq, ge_iff_le]
    omega
  · simp only [List.pairwise_cons, List.mem_cons, List.mem_singleton, forall_eq_or_imp,
      forall_eq, List.not_mem_nil, List.Pairwise.nil, ASICREV_IS, AMDGPU_IN_RANGE,
      AMDGPU_RANGE_HELPER, AMDGPU_ICELAND_RANGE, AMDGPU_TONGA_RANGE, AMDGPU_FIJI_RANGE,
      AMDGPU_POLARIS10_RANGE, AMDGPU_POLARIS11_RANGE, AMDGPU_POLARIS12_RANGE,
      Bool.and_eq_true, decide_eq_true_eq, ge_iff_le, IsEmpty.forall_iff, implies_true,
      and_true, not_and, not_lt]
    omega

/-- Witness for C30: family `0x82` with revision `0x50` is Polaris10 and nothing else; family
`0x87` with revision `0x10` is Carrizo and Bristol and nothing else. -/
theorem at_most_one_chip_witness :
    (perChipPredicates.filter (fun c => c.2 0x82 0x50)).map Prod.fst = [Chip.POLARIS10] ∧
      (perChipPredicates.filter (fun c => c.2 0x87 0x10)).map Prod.fst =
        [Chip.CARRIZO, Chip.BRISTOL] ∧
      AMDGPU_IS_CARRIZO 0x87 0x10 = true :=
  ⟨by decide, by decide, (at_most_one_chip 0x87 0x10).2.2.1 (by decide)⟩

end Pal
